import Mathlib

/-!
Shallow embedding of `src/source/fsm_controller.py` from the
hand-gesture-robot-control repository: the gesture-to-actuation finite
state machine (`FSMController`), its per-tick `update`, and the log
drain `get_log_messages`.

Modelling conventions:
* Python `time.time()` floats are modelled as rationals (`ℚ`).
* Gesture labels are the strings the application passes (`"Close"`,
  `"Open"`, `"CW"`, `"CCW"`, `""`, ...).
* The robot-controller handle is modelled per tick as an oracle
  (`Actuator`) fixing, for each capability call, whether it raises and
  what `get_program_finished` returns.
* A tick returns the mutated controller, the list of actuator calls
  attempted (in order), and `raised = some e` when an exception
  propagates out of `update` (in which case, as in Python, the local
  `new_log_messages` list is discarded because the final
  `self.log_messages.extend(...)` never runs, while the field mutations
  already performed persist on the object).
* Python truthiness of an optional float (`self.awaiting_confirm_since
  and ...`, `self.running_since and ...`) is `False` for `None` and for
  `0.0`; this is modelled exactly by `truthy_and_gt`.
-/

namespace HandGesture

inductive FSMState : Type
  | DISABLED
  | ENABLED
  | AWAIT_CONFIRM
  | RUNNING
deriving DecidableEq, Repr

structure FSMController : Type where
  state : FSMState
  gesture_counter : Nat
  confirm_counter : Nat
  start_hold_since : Option ℚ
  stop_hold_since : Option ℚ
  awaiting_confirm_since : Option ℚ
  running_since : Option ℚ
  pending_selection : Option String
  log_messages : List String
deriving DecidableEq, Repr

/-- Timing parameters set in `FSMController.__init__` (never mutated). -/
def START_HOLD_TIME : ℚ := 3

def STOP_HOLD_TIME : ℚ := 3

def CONFIRM_TIMEOUT : ℚ := 5

def EXEC_PULSE_TIME : ℚ := 1 / 5

def MAX_RUNNING_TIME : ℚ := 15

def GESTURE_CONFIRM_COUNT : Nat := 15

/-- The controller as built by `FSMController.__init__`. -/
def FSMController.init : FSMController where
  state := FSMState.DISABLED
  gesture_counter := 0
  confirm_counter := 0
  start_hold_since := none
  stop_hold_since := none
  awaiting_confirm_since := none
  running_since := none
  pending_selection := none
  log_messages := []

/-- One actuator capability call, as attempted by the engine. -/
inductive ActCall : Type
  | set_enabled (enabled : Bool)
  | set_program_selection (is_prog2 : Bool)
  | pulse_execute (pulse_time : ℚ)
  | get_program_finished
deriving DecidableEq, Repr

/-- Per-tick behaviour of the robot-controller handle: for each call,
`some e` means the call raises an exception rendered as `e`; for the
poll, `Except.error e` means it raises. -/
structure Actuator : Type where
  set_enabled_result : Bool → Option String
  set_program_selection_result : Bool → Option String
  pulse_execute_result : ℚ → Option String
  get_program_finished_result : Except String Bool

/-- An actuator on which every call succeeds; the poll returns `b`. -/
def Actuator.ok (b : Bool) : Actuator where
  set_enabled_result := fun _ => none
  set_program_selection_result := fun _ => none
  pulse_execute_result := fun _ => none
  get_program_finished_result := Except.ok b

/-- Python truthiness of an optional float combined with a strict
comparison: `o and (now - o > limit)`. `None` and `0.0` are falsy. -/
def truthy_and_gt (o : Option ℚ) (now limit : ℚ) : Bool :=
  match o with
  | none => false
  | some t => decide (t ≠ 0) && decide (now - t > limit)

/-- Python rendering of an optional string inside an f-string. -/
def pyStr : Option String → String
  | none => "None"
  | some s => s

def stopMsg : String := "STOP >= 3.0s -> DESABILITADO"

def startMsg : String := "START >= 3.0s -> HABILITADO"

def selMsg (p : Option String) : String :=
  "Seleção inicial '" ++ pyStr p ++ "' -> Aguardando confirmação."

def confMsg (p : Option String) : String :=
  "Seleção '" ++ pyStr p ++ "' confirmada. Executando."

def pulseErrMsg (e : String) : String := "Erro ao executar pulso: " ++ e

def confirmTimeoutMsg : String := "Timeout de confirmação. Retornando para HABILITADO."

def finishedMsg : String := "Programa finalizado. Retornando para HABILITADO."

def execTimeoutMsg : String := "Timeout de execução. Retornando para HABILITADO."

def statusErrMsg (e : String) : String :=
  "Erro ao verificar status do programa: " ++ e

/-- `FSMController._transition_to`. -/
def transition_to (c : FSMController) (new_state : FSMState) (now : ℚ) : FSMController :=
  let old_state := c.state
  let c := { c with state := new_state }
  match new_state with
  | FSMState.DISABLED =>
      { c with start_hold_since := none, awaiting_confirm_since := none,
               pending_selection := none, running_since := none,
               gesture_counter := 0, confirm_counter := 0 }
  | FSMState.ENABLED =>
      match old_state with
      | FSMState.DISABLED =>
          { c with start_hold_since := none, awaiting_confirm_since := none,
                   pending_selection := none }
      | FSMState.AWAIT_CONFIRM =>
          { c with awaiting_confirm_since := none, pending_selection := none,
                   confirm_counter := 0 }
      | FSMState.RUNNING =>
          { c with running_since := none, pending_selection := none }
      | _ => c
  | FSMState.AWAIT_CONFIRM =>
      { c with running_since := none, gesture_counter := 0 }
  | FSMState.RUNNING =>
      { c with running_since := some now, awaiting_confirm_since := none,
               pending_selection := none, confirm_counter := 0 }

/-- Result of a handler or of a whole tick: mutated controller, messages
appended to the local `new_log_messages`, actuator calls attempted, and
the exception that propagated, if any. -/
structure HandlerResult : Type where
  ctrl : FSMController
  msgs : List String
  calls : List ActCall
  raised : Option String
deriving Repr

/-- The stop-override block at the top of `FSMController.update`. -/
def stop_override (c : FSMController) (static_gesture : String) (now : ℚ)
    (act : Actuator) : HandlerResult :=
  if static_gesture = "Close" then
    let c := if c.stop_hold_since = none then { c with stop_hold_since := some now } else c
    match c.stop_hold_since with
    | none => ⟨c, [], [], none⟩
    | some t =>
      if now - t ≥ STOP_HOLD_TIME then
        if c.state ≠ FSMState.DISABLED then
          match act.set_enabled_result false with
          | some e => ⟨c, [stopMsg], [ActCall.set_enabled false], some e⟩
          | none =>
              ⟨{ transition_to c FSMState.DISABLED now with stop_hold_since := none },
               [stopMsg], [ActCall.set_enabled false], none⟩
        else
          ⟨{ c with stop_hold_since := none }, [], [], none⟩
      else ⟨c, [], [], none⟩
  else ⟨{ c with stop_hold_since := none }, [], [], none⟩

/-- `FSMController._handle_disabled_state`. -/
def handle_disabled_state (c : FSMController) (static_gesture : String) (now : ℚ)
    (act : Actuator) : HandlerResult :=
  if static_gesture = "Open" then
    match c.start_hold_since with
    | none => ⟨{ c with start_hold_since := some now }, [], [], none⟩
    | some t =>
      if now - t ≥ START_HOLD_TIME then
        match act.set_enabled_result true with
        | some e => ⟨c, [startMsg], [ActCall.set_enabled true], some e⟩
        | none =>
            ⟨transition_to c FSMState.ENABLED now, [startMsg],
             [ActCall.set_enabled true], none⟩
      else ⟨c, [], [], none⟩
  else ⟨{ c with start_hold_since := none }, [], [], none⟩

/-- `FSMController._handle_enabled_state` (no actuator calls, cannot raise). -/
def handle_enabled_state (c : FSMController) (dynamic_gesture : String) (now : ℚ) :
    FSMController × List String :=
  if dynamic_gesture = "CW" ∨ dynamic_gesture = "CCW" then
    let c :=
      if c.pending_selection = some dynamic_gesture then
        { c with gesture_counter := c.gesture_counter + 1 }
      else
        { c with pending_selection := some dynamic_gesture, gesture_counter := 1 }
    if c.gesture_counter ≥ GESTURE_CONFIRM_COUNT then
      let c := { c with awaiting_confirm_since := some now }
      let c := transition_to c FSMState.AWAIT_CONFIRM now
      ({ c with gesture_counter := 0 }, [selMsg c.pending_selection])
    else (c, [])
  else
    ({ c with pending_selection := none, gesture_counter := 0 }, [])

/-- `FSMController._handle_await_confirm_state`. -/
def handle_await_confirm_state (c : FSMController) (dynamic_gesture : String) (now : ℚ)
    (act : Actuator) : HandlerResult :=
  let c :=
    if some dynamic_gesture = c.pending_selection then
      { c with confirm_counter := c.confirm_counter + 1 }
    else
      { c with confirm_counter := 0 }
  if c.confirm_counter ≥ GESTURE_CONFIRM_COUNT then
    let is_prog2 : Bool := c.pending_selection == some "CCW"
    match act.set_program_selection_result is_prog2 with
    | some e => ⟨c, [], [ActCall.set_program_selection is_prog2], some e⟩
    | none =>
      let msg1 := confMsg c.pending_selection
      let pulseLog :=
        match act.pulse_execute_result EXEC_PULSE_TIME with
        | some e => [pulseErrMsg e]
        | none => []
      match act.set_program_selection_result false with
      | some e =>
          ⟨c, msg1 :: pulseLog,
           [ActCall.set_program_selection is_prog2, ActCall.pulse_execute EXEC_PULSE_TIME,
            ActCall.set_program_selection false], some e⟩
      | none =>
          let c := transition_to c FSMState.RUNNING now
          ⟨{ c with confirm_counter := 0 }, msg1 :: pulseLog,
           [ActCall.set_program_selection is_prog2, ActCall.pulse_execute EXEC_PULSE_TIME,
            ActCall.set_program_selection false], none⟩
  else if truthy_and_gt c.awaiting_confirm_since now CONFIRM_TIMEOUT then
    ⟨transition_to c FSMState.ENABLED now, [confirmTimeoutMsg], [], none⟩
  else ⟨c, [], [], none⟩

/-- `FSMController._handle_running_state` (the whole body is inside
`try/except`, so it never raises out of the handler). -/
def handle_running_state (c : FSMController) (now : ℚ) (act : Actuator) : HandlerResult :=
  match act.get_program_finished_result with
  | Except.error e => ⟨c, [statusErrMsg e], [ActCall.get_program_finished], none⟩
  | Except.ok program_finished =>
    if program_finished then
      ⟨transition_to c FSMState.ENABLED now, [finishedMsg],
       [ActCall.get_program_finished], none⟩
    else if truthy_and_gt c.running_since now MAX_RUNNING_TIME then
      ⟨transition_to c FSMState.ENABLED now, [execTimeoutMsg],
       [ActCall.get_program_finished], none⟩
    else ⟨c, [], [ActCall.get_program_finished], none⟩

/-- The per-state dispatch block of `FSMController.update` ("State
machine logic"), run after the stop override on the possibly already
transitioned state. -/
def dispatch (c : FSMController) (static_gesture dynamic_gesture : String)
    (act : Actuator) (now : ℚ) : HandlerResult :=
  match c.state with
  | FSMState.DISABLED => handle_disabled_state c static_gesture now act
  | FSMState.ENABLED =>
      let p := handle_enabled_state c dynamic_gesture now
      ⟨p.1, p.2, [], none⟩
  | FSMState.AWAIT_CONFIRM => handle_await_confirm_state c dynamic_gesture now act
  | FSMState.RUNNING => handle_running_state c now act

/-- Body of `FSMController.update` up to, and excluding, the final
`self.log_messages.extend(new_log_messages)`. -/
def updateAux (c : FSMController) (static_gesture dynamic_gesture : String)
    (act : Actuator) (now : ℚ) : HandlerResult :=
  let r1 := stop_override c static_gesture now act
  match r1.raised with
  | some _ => r1
  | none =>
    let r2 := dispatch r1.ctrl static_gesture dynamic_gesture act now
    ⟨r2.ctrl, r1.msgs ++ r2.msgs, r1.calls ++ r2.calls, r2.raised⟩

/-- Result of a whole `update` call. -/
structure TickResult : Type where
  ctrl : FSMController
  calls : List ActCall
  raised : Option String
deriving Repr

/-- `FSMController.update`. When no exception propagates, the local
`new_log_messages` are appended to `self.log_messages`; when one does,
they are lost but the mutations already made persist. -/
def FSMController.update (c : FSMController) (static_gesture dynamic_gesture : String)
    (act : Actuator) (now : ℚ) : TickResult :=
  let r := updateAux c static_gesture dynamic_gesture act now
  match r.raised with
  | some e => ⟨r.ctrl, r.calls, some e⟩
  | none => ⟨{ r.ctrl with log_messages := r.ctrl.log_messages ++ r.msgs }, r.calls, none⟩

/-- `FSMController.get_log_messages`: returns a copy of the buffer and
clears it. -/
def FSMController.get_log_messages (c : FSMController) : List String × FSMController :=
  (c.log_messages, { c with log_messages := [] })

/-- One tick of input to the engine. -/
structure TickIn : Type where
  static_gesture : String
  dynamic_gesture : String
  act : Actuator
  now : ℚ

/-- Run a sequence of ticks, threading the (mutated-in-place) controller
through — the Python object survives even a tick whose update raised —
and collecting every actuator call attempted along the way. -/
def runTrace (c : FSMController) : List TickIn → FSMController × List ActCall
  | [] => (c, [])
  | t :: ts =>
      let r := c.update t.static_gesture t.dynamic_gesture t.act t.now
      let rest := runTrace r.ctrl ts
      (rest.1, r.calls ++ rest.2)

/-- The controller after a sequence of ticks. -/
def runTicks (c : FSMController) (l : List TickIn) : FSMController :=
  (runTrace c l).1

/-- A controller is reachable when some tick sequence produces it from
the freshly constructed controller. -/
def Reachable (c : FSMController) : Prop :=
  ∃ ticks : List TickIn, runTicks FSMController.init ticks = c

/-- An actuator whose `get_program_finished` poll raises; other calls
succeed. -/
def pollFailAct (e : String) : Actuator where
  set_enabled_result := fun _ => none
  set_program_selection_result := fun _ => none
  pulse_execute_result := fun _ => none
  get_program_finished_result := Except.error e

/-- A concrete `AwaitConfirm` state: candidate `p` confirmed 14 times,
window entered at time 1. -/
def awaitPending (p : String) : FSMController :=
  { FSMController.init with
      state := FSMState.AWAIT_CONFIRM
      pending_selection := some p
      confirm_counter := 14
      awaiting_confirm_since := some 1 }

/-- An actuator that succeeds everywhere except the pulse, which raises. -/
def pulseFailAct (e : String) : Actuator where
  set_enabled_result := fun _ => none
  set_program_selection_result := fun _ => none
  pulse_execute_result := fun _ => some e
  get_program_finished_result := Except.ok false

/-- An actuator whose `set_enabled` raises; other calls succeed. -/
def failEnableAct (e : String) : Actuator where
  set_enabled_result := fun _ => some e
  set_program_selection_result := fun _ => none
  pulse_execute_result := fun _ => none
  get_program_finished_result := Except.ok false

/-- The state-dependent nullability of `pending_selection`. -/
def pendingInv (c : FSMController) : Prop :=
  (c.state = FSMState.DISABLED → c.pending_selection = none) ∧
  (c.state = FSMState.RUNNING → c.pending_selection = none) ∧
  (c.state = FSMState.AWAIT_CONFIRM → c.pending_selection.isSome)

/-- The dynamic labels the selection logic accepts. -/
def Directional (d : String) : Prop := d = "CW" ∨ d = "CCW"

/-- A tick list whose dynamic gestures are all directional and in which
every tick differs from the gesture before it (`p` is the gesture of
the previous tick). -/
def AltFrom : String → List TickIn → Prop
  | _, [] => True
  | p, tk :: ts =>
      Directional tk.dynamic_gesture ∧ tk.dynamic_gesture ≠ p ∧
        AltFrom tk.dynamic_gesture ts

/-- Invariant carried along an alternating run whose previous dynamic
gesture was `p`. -/
def altInv (p : String) (c : FSMController) : Prop :=
  c.state ≠ FSMState.AWAIT_CONFIRM ∧ c.state ≠ FSMState.RUNNING ∧
  (c.state = FSMState.ENABLED →
    (c.gesture_counter = 0 ∧ c.pending_selection = none) ∨
    (c.gesture_counter = 1 ∧ c.pending_selection = some p)) ∧
  (c.state = FSMState.DISABLED → c.gesture_counter = 0)

lemma runTicks_nil (c : FSMController) : runTicks c [] = c := rfl

lemma runTicks_cons (c : FSMController) (t : TickIn) (ts : List TickIn) :
    runTicks c (t :: ts) =
      runTicks (c.update t.static_gesture t.dynamic_gesture t.act t.now).ctrl ts := rfl

lemma runTrace_cons (c : FSMController) (t : TickIn) (ts : List TickIn) :
    runTrace c (t :: ts) =
      ((runTrace (c.update t.static_gesture t.dynamic_gesture t.act t.now).ctrl ts).1,
        (c.update t.static_gesture t.dynamic_gesture t.act t.now).calls ++
          (runTrace (c.update t.static_gesture t.dynamic_gesture t.act t.now).ctrl ts).2) := rfl

/-! ### Step lemmas: the stop-override block -/

lemma stop_override_not_close (c : FSMController) (static_gesture : String) (now : ℚ)
    (act : Actuator) (h : static_gesture ≠ "Close") :
    stop_override c static_gesture now act =
      ⟨{ c with stop_hold_since := none }, [], [], none⟩ := by
  simp [stop_override, h]

lemma stop_override_close_start (c : FSMController) (now : ℚ) (act : Actuator)
    (h : c.stop_hold_since = none) :
    stop_override c "Close" now act =
      ⟨{ c with stop_hold_since := some now }, [], [], none⟩ := by
  simp [stop_override, h, STOP_HOLD_TIME]

lemma stop_override_close_early (c : FSMController) (now t : ℚ) (act : Actuator)
    (h : c.stop_hold_since = some t) (hlt : ¬ now - t ≥ STOP_HOLD_TIME) :
    stop_override c "Close" now act = ⟨c, [], [], none⟩ := by
  simp [stop_override, h, hlt]

lemma stop_override_close_fire (c : FSMController) (now t : ℚ) (act : Actuator)
    (h : c.stop_hold_since = some t) (hge : now - t ≥ STOP_HOLD_TIME)
    (hst : c.state ≠ FSMState.DISABLED) (hok : act.set_enabled_result false = none) :
    stop_override c "Close" now act =
      ⟨{ c with state := FSMState.DISABLED, start_hold_since := none,
                awaiting_confirm_since := none, pending_selection := none,
                running_since := none, gesture_counter := 0, confirm_counter := 0,
                stop_hold_since := none },
       [stopMsg], [ActCall.set_enabled false], none⟩ := by
  simp [stop_override, h, hge, hst, hok, transition_to]

lemma stop_override_close_fire_raise (c : FSMController) (now t : ℚ) (act : Actuator)
    (e : String) (h : c.stop_hold_since = some t) (hge : now - t ≥ STOP_HOLD_TIME)
    (hst : c.state ≠ FSMState.DISABLED) (hfail : act.set_enabled_result false = some e) :
    stop_override c "Close" now act =
      ⟨c, [stopMsg], [ActCall.set_enabled false], some e⟩ := by
  simp [stop_override, h, hge, hst, hfail]

lemma stop_override_close_already_disabled (c : FSMController) (now t : ℚ) (act : Actuator)
    (h : c.stop_hold_since = some t) (hge : now - t ≥ STOP_HOLD_TIME)
    (hst : c.state = FSMState.DISABLED) :
    stop_override c "Close" now act =
      ⟨{ c with stop_hold_since := none }, [], [], none⟩ := by
  simp [stop_override, h, hge, hst]

/-! ### Step lemmas: the DISABLED handler -/

lemma handle_disabled_not_open (c : FSMController) (static_gesture : String) (now : ℚ)
    (act : Actuator) (h : static_gesture ≠ "Open") :
    handle_disabled_state c static_gesture now act =
      ⟨{ c with start_hold_since := none }, [], [], none⟩ := by
  simp [handle_disabled_state, h]

lemma handle_disabled_open_start (c : FSMController) (now : ℚ) (act : Actuator)
    (h : c.start_hold_since = none) :
    handle_disabled_state c "Open" now act =
      ⟨{ c with start_hold_since := some now }, [], [], none⟩ := by
  simp [handle_disabled_state, h]

lemma handle_disabled_open_early (c : FSMController) (now t : ℚ) (act : Actuator)
    (h : c.start_hold_since = some t) (hlt : ¬ now - t ≥ START_HOLD_TIME) :
    handle_disabled_state c "Open" now act = ⟨c, [], [], none⟩ := by
  simp [handle_disabled_state, h, hlt]

lemma handle_disabled_open_fire (c : FSMController) (now t : ℚ) (act : Actuator)
    (h : c.start_hold_since = some t) (hge : now - t ≥ START_HOLD_TIME)
    (hst : c.state = FSMState.DISABLED) (hok : act.set_enabled_result true = none) :
    handle_disabled_state c "Open" now act =
      ⟨{ c with state := FSMState.ENABLED, start_hold_since := none,
                awaiting_confirm_since := none, pending_selection := none },
       [startMsg], [ActCall.set_enabled true], none⟩ := by
  simp [handle_disabled_state, h, hge, hok, transition_to, hst]

lemma handle_disabled_open_fire_raise (c : FSMController) (now t : ℚ) (act : Actuator)
    (e : String) (h : c.start_hold_since = some t) (hge : now - t ≥ START_HOLD_TIME)
    (hfail : act.set_enabled_result true = some e) :
    handle_disabled_state c "Open" now act =
      ⟨c, [startMsg], [ActCall.set_enabled true], some e⟩ := by
  simp [handle_disabled_state, h, hge, hfail]

/-! ### Step lemmas: the ENABLED handler -/

lemma handle_enabled_not_dir (c : FSMController) (dynamic_gesture : String) (now : ℚ)
    (h : ¬ (dynamic_gesture = "CW" ∨ dynamic_gesture = "CCW")) :
    handle_enabled_state c dynamic_gesture now =
      ({ c with pending_selection := none, gesture_counter := 0 }, []) := by
  simp [handle_enabled_state, h]

lemma handle_enabled_new_dir (c : FSMController) (dynamic_gesture : String) (now : ℚ)
    (hdir : dynamic_gesture = "CW" ∨ dynamic_gesture = "CCW")
    (h : c.pending_selection ≠ some dynamic_gesture) :
    handle_enabled_state c dynamic_gesture now =
      ({ c with pending_selection := some dynamic_gesture, gesture_counter := 1 }, []) := by
  simp [handle_enabled_state, hdir, h, GESTURE_CONFIRM_COUNT]

lemma handle_enabled_count (c : FSMController) (dynamic_gesture : String) (now : ℚ)
    (hdir : dynamic_gesture = "CW" ∨ dynamic_gesture = "CCW")
    (h : c.pending_selection = some dynamic_gesture)
    (hlt : c.gesture_counter + 1 < GESTURE_CONFIRM_COUNT) :
    handle_enabled_state c dynamic_gesture now =
      ({ c with gesture_counter := c.gesture_counter + 1 }, []) := by
  simp [handle_enabled_state, hdir, h]
  omega

lemma handle_enabled_fire (c : FSMController) (dynamic_gesture : String) (now : ℚ)
    (hdir : dynamic_gesture = "CW" ∨ dynamic_gesture = "CCW")
    (h : c.pending_selection = some dynamic_gesture)
    (hge : c.gesture_counter + 1 ≥ GESTURE_CONFIRM_COUNT) :
    handle_enabled_state c dynamic_gesture now =
      ({ c with state := FSMState.AWAIT_CONFIRM, awaiting_confirm_since := some now,
                running_since := none, gesture_counter := 0 },
       [selMsg (some dynamic_gesture)]) := by
  simp [handle_enabled_state, hdir, h, hge, transition_to]

/-! ### Step lemmas: the AWAIT_CONFIRM handler -/

lemma handle_await_miss_quiet (c : FSMController) (dynamic_gesture : String) (now : ℚ)
    (act : Actuator) (h : some dynamic_gesture ≠ c.pending_selection)
    (htm : truthy_and_gt c.awaiting_confirm_since now CONFIRM_TIMEOUT = false) :
    handle_await_confirm_state c dynamic_gesture now act =
      ⟨{ c with confirm_counter := 0 }, [], [], none⟩ := by
  simp [handle_await_confirm_state, h, GESTURE_CONFIRM_COUNT, htm]

lemma handle_await_miss_timeout (c : FSMController) (dynamic_gesture : String) (now : ℚ)
    (act : Actuator) (h : some dynamic_gesture ≠ c.pending_selection)
    (hst : c.state = FSMState.AWAIT_CONFIRM)
    (htm : truthy_and_gt c.awaiting_confirm_since now CONFIRM_TIMEOUT = true) :
    handle_await_confirm_state c dynamic_gesture now act =
      ⟨{ c with state := FSMState.ENABLED, awaiting_confirm_since := none,
                pending_selection := none, confirm_counter := 0 },
       [confirmTimeoutMsg], [], none⟩ := by
  simp [handle_await_confirm_state, h, GESTURE_CONFIRM_COUNT, htm, transition_to, hst]

lemma handle_await_match_quiet (c : FSMController) (dynamic_gesture : String) (now : ℚ)
    (act : Actuator) (h : some dynamic_gesture = c.pending_selection)
    (hlt : c.confirm_counter + 1 < GESTURE_CONFIRM_COUNT)
    (htm : truthy_and_gt c.awaiting_confirm_since now CONFIRM_TIMEOUT = false) :
    handle_await_confirm_state c dynamic_gesture now act =
      ⟨{ c with confirm_counter := c.confirm_counter + 1 }, [], [], none⟩ := by
  have h2 : ¬ c.confirm_counter + 1 ≥ GESTURE_CONFIRM_COUNT := by omega
  simp [handle_await_confirm_state, h, h2, htm]

lemma handle_await_match_timeout (c : FSMController) (dynamic_gesture : String) (now : ℚ)
    (act : Actuator) (h : some dynamic_gesture = c.pending_selection)
    (hst : c.state = FSMState.AWAIT_CONFIRM)
    (hlt : c.confirm_counter + 1 < GESTURE_CONFIRM_COUNT)
    (htm : truthy_and_gt c.awaiting_confirm_since now CONFIRM_TIMEOUT = true) :
    handle_await_confirm_state c dynamic_gesture now act =
      ⟨{ c with state := FSMState.ENABLED, awaiting_confirm_since := none,
                pending_selection := none, confirm_counter := 0 },
       [confirmTimeoutMsg], [], none⟩ := by
  have h2 : ¬ c.confirm_counter + 1 ≥ GESTURE_CONFIRM_COUNT := by omega
  simp [handle_await_confirm_state, h, h2, htm, transition_to, hst]

/-- The execute path: the consecutive-repeat count is reached, both
`set_program_selection` calls succeed, while `pulse_execute` may fail or
succeed. -/
lemma handle_await_fire (c : FSMController) (dynamic_gesture : String) (now : ℚ)
    (act : Actuator) (h : some dynamic_gesture = c.pending_selection)
    (hst : c.state = FSMState.AWAIT_CONFIRM)
    (hge : c.confirm_counter + 1 ≥ GESTURE_CONFIRM_COUNT)
    (hsel : ∀ b, act.set_program_selection_result b = none) :
    handle_await_confirm_state c dynamic_gesture now act =
      ⟨{ c with state := FSMState.RUNNING, running_since := some now,
                awaiting_confirm_since := none, pending_selection := none,
                confirm_counter := 0 },
       confMsg c.pending_selection ::
         (match act.pulse_execute_result EXEC_PULSE_TIME with
          | some e => [pulseErrMsg e]
          | none => []),
       [ActCall.set_program_selection (c.pending_selection == some "CCW"),
        ActCall.pulse_execute EXEC_PULSE_TIME, ActCall.set_program_selection false],
       none⟩ := by
  simp [handle_await_confirm_state, h, hge, hsel, transition_to, hst]

/-! ### Step lemmas: the RUNNING handler -/

lemma handle_running_poll_raise (c : FSMController) (now : ℚ) (act : Actuator)
    (e : String) (h : act.get_program_finished_result = Except.error e) :
    handle_running_state c now act =
      ⟨c, [statusErrMsg e], [ActCall.get_program_finished], none⟩ := by
  simp [handle_running_state, h]

lemma handle_running_finished (c : FSMController) (now : ℚ) (act : Actuator)
    (hst : c.state = FSMState.RUNNING)
    (h : act.get_program_finished_result = Except.ok true) :
    handle_running_state c now act =
      ⟨{ c with state := FSMState.ENABLED, running_since := none,
                pending_selection := none },
       [finishedMsg], [ActCall.get_program_finished], none⟩ := by
  simp [handle_running_state, h, transition_to, hst]

lemma handle_running_timeout (c : FSMController) (now : ℚ) (act : Actuator)
    (hst : c.state = FSMState.RUNNING)
    (h : act.get_program_finished_result = Except.ok false)
    (htm : truthy_and_gt c.running_since now MAX_RUNNING_TIME = true) :
    handle_running_state c now act =
      ⟨{ c with state := FSMState.ENABLED, running_since := none,
                pending_selection := none },
       [execTimeoutMsg], [ActCall.get_program_finished], none⟩ := by
  simp [handle_running_state, h, htm, transition_to, hst]

lemma handle_running_quiet (c : FSMController) (now : ℚ) (act : Actuator)
    (h : act.get_program_finished_result = Except.ok false)
    (htm : truthy_and_gt c.running_since now MAX_RUNNING_TIME = false) :
    handle_running_state c now act = ⟨c, [], [ActCall.get_program_finished], none⟩ := by
  simp [handle_running_state, h, htm]

/-! ### Composition lemmas for a whole tick -/

lemma dispatch_disabled (c : FSMController) (s d : String) (act : Actuator) (now : ℚ)
    (hst : c.state = FSMState.DISABLED) :
    dispatch c s d act now = handle_disabled_state c s now act := by
  simp [dispatch, hst]

lemma dispatch_enabled (c : FSMController) (s d : String) (act : Actuator) (now : ℚ)
    (hst : c.state = FSMState.ENABLED) :
    dispatch c s d act now =
      ⟨(handle_enabled_state c d now).1, (handle_enabled_state c d now).2, [], none⟩ := by
  simp [dispatch, hst]

lemma dispatch_await (c : FSMController) (s d : String) (act : Actuator) (now : ℚ)
    (hst : c.state = FSMState.AWAIT_CONFIRM) :
    dispatch c s d act now = handle_await_confirm_state c d now act := by
  simp [dispatch, hst]

lemma dispatch_running (c : FSMController) (s d : String) (act : Actuator) (now : ℚ)
    (hst : c.state = FSMState.RUNNING) :
    dispatch c s d act now = handle_running_state c now act := by
  simp [dispatch, hst]

lemma update_comp (c c1 c2 : FSMController) (s d : String) (act : Actuator) (now : ℚ)
    (m1 m2 : List String) (k1 k2 : List ActCall)
    (hso : stop_override c s now act = ⟨c1, m1, k1, none⟩)
    (hd : dispatch c1 s d act now = ⟨c2, m2, k2, none⟩) :
    c.update s d act now =
      ⟨{ c2 with log_messages := c2.log_messages ++ (m1 ++ m2) }, k1 ++ k2, none⟩ := by
  simp [FSMController.update, updateAux, hso, hd]

lemma update_comp_so_raise (c c1 : FSMController) (s d : String) (act : Actuator)
    (now : ℚ) (m1 : List String) (k1 : List ActCall) (e : String)
    (hso : stop_override c s now act = ⟨c1, m1, k1, some e⟩) :
    c.update s d act now = ⟨c1, k1, some e⟩ := by
  simp [FSMController.update, updateAux, hso]

lemma update_comp_dispatch_raise (c c1 c2 : FSMController) (s d : String) (act : Actuator)
    (now : ℚ) (m1 m2 : List String) (k1 k2 : List ActCall) (e : String)
    (hso : stop_override c s now act = ⟨c1, m1, k1, none⟩)
    (hd : dispatch c1 s d act now = ⟨c2, m2, k2, some e⟩) :
    c.update s d act now = ⟨c2, k1 ++ k2, some e⟩ := by
  simp [FSMController.update, updateAux, hso, hd]

/-! ### Whole-tick scenario lemmas: DISABLED state and the stop override -/

lemma update_disabled_open_start (c : FSMController) (d : String) (act : Actuator)
    (now : ℚ) (hst : c.state = FSMState.DISABLED) (hh : c.start_hold_since = none) :
    c.update "Open" d act now =
      ⟨{ c with stop_hold_since := none, start_hold_since := some now }, [], none⟩ := by
  have hso := stop_override_not_close c "Open" now act (by decide)
  have hdd := dispatch_disabled { c with stop_hold_since := none } "Open" d act now
    (by simpa using hst)
  have hd := handle_disabled_open_start { c with stop_hold_since := none } now act
    (by simpa using hh)
  rw [update_comp c _ _ "Open" d act now _ _ _ _ hso (hdd.trans hd)]
  simp

lemma update_disabled_open_early (c : FSMController) (d : String) (act : Actuator)
    (now t : ℚ) (hst : c.state = FSMState.DISABLED) (hh : c.start_hold_since = some t)
    (hlt : ¬ now - t ≥ START_HOLD_TIME) :
    c.update "Open" d act now = ⟨{ c with stop_hold_since := none }, [], none⟩ := by
  have hso := stop_override_not_close c "Open" now act (by decide)
  have hdd := dispatch_disabled { c with stop_hold_since := none } "Open" d act now
    (by simpa using hst)
  have hd := handle_disabled_open_early { c with stop_hold_since := none } now t act
    (by simpa using hh) hlt
  rw [update_comp c _ _ "Open" d act now _ _ _ _ hso (hdd.trans hd)]
  simp

lemma update_disabled_open_fire (c : FSMController) (d : String) (act : Actuator)
    (now t : ℚ) (hst : c.state = FSMState.DISABLED) (hh : c.start_hold_since = some t)
    (hge : now - t ≥ START_HOLD_TIME) (hok : act.set_enabled_result true = none) :
    c.update "Open" d act now =
      ⟨{ c with state := FSMState.ENABLED, stop_hold_since := none,
                start_hold_since := none, awaiting_confirm_since := none,
                pending_selection := none,
                log_messages := c.log_messages ++ [startMsg] },
       [ActCall.set_enabled true], none⟩ := by
  have hso := stop_override_not_close c "Open" now act (by decide)
  have hdd := dispatch_disabled { c with stop_hold_since := none } "Open" d act now
    (by simpa using hst)
  have hd := handle_disabled_open_fire { c with stop_hold_since := none } now t act
    (by simpa using hh) hge (by simpa using hst) hok
  rw [update_comp c _ _ "Open" d act now _ _ _ _ hso (hdd.trans hd)]
  simp

lemma update_disabled_other (c : FSMController) (s d : String) (act : Actuator)
    (now : ℚ) (hst : c.state = FSMState.DISABLED) (hs1 : s ≠ "Open") (hs2 : s ≠ "Close") :
    c.update s d act now =
      ⟨{ c with stop_hold_since := none, start_hold_since := none }, [], none⟩ := by
  have hso := stop_override_not_close c s now act hs2
  have hdd := dispatch_disabled { c with stop_hold_since := none } s d act now
    (by simpa using hst)
  have hd := handle_disabled_not_open { c with stop_hold_since := none } s now act hs1
  rw [update_comp c _ _ s d act now _ _ _ _ hso (hdd.trans hd)]
  simp

lemma update_disabled_close_start (c : FSMController) (d : String) (act : Actuator)
    (now : ℚ) (hst : c.state = FSMState.DISABLED) (hh : c.stop_hold_since = none) :
    c.update "Close" d act now =
      ⟨{ c with stop_hold_since := some now, start_hold_since := none }, [], none⟩ := by
  have hso := stop_override_close_start c now act hh
  have hdd := dispatch_disabled { c with stop_hold_since := some now } "Close" d act now
    (by simpa using hst)
  have hd := handle_disabled_not_open { c with stop_hold_since := some now } "Close" now act
    (by decide)
  rw [update_comp c _ _ "Close" d act now _ _ _ _ hso (hdd.trans hd)]
  simp

lemma update_disabled_close_early (c : FSMController) (d : String) (act : Actuator)
    (now t : ℚ) (hst : c.state = FSMState.DISABLED) (hh : c.stop_hold_since = some t)
    (hlt : ¬ now - t ≥ STOP_HOLD_TIME) :
    c.update "Close" d act now = ⟨{ c with start_hold_since := none }, [], none⟩ := by
  have hso := stop_override_close_early c now t act hh hlt
  have hdd := dispatch_disabled c "Close" d act now hst
  have hd := handle_disabled_not_open c "Close" now act (by decide)
  rw [update_comp c _ _ "Close" d act now _ _ _ _ hso (hdd.trans hd)]
  simp

lemma update_disabled_close_late (c : FSMController) (d : String) (act : Actuator)
    (now t : ℚ) (hst : c.state = FSMState.DISABLED) (hh : c.stop_hold_since = some t)
    (hge : now - t ≥ STOP_HOLD_TIME) :
    c.update "Close" d act now =
      ⟨{ c with stop_hold_since := none, start_hold_since := none }, [], none⟩ := by
  have hso := stop_override_close_already_disabled c now t act hh hge hst
  have hdd := dispatch_disabled { c with stop_hold_since := none } "Close" d act now
    (by simpa using hst)
  have hd := handle_disabled_not_open { c with stop_hold_since := none } "Close" now act
    (by decide)
  rw [update_comp c _ _ "Close" d act now _ _ _ _ hso (hdd.trans hd)]
  simp

/-- A tick on which the stop override fires from a non-`DISABLED` state:
the engine is disabled, `set_enabled(false)` is the only call, and the
per-state logic then runs in (and stays in) `DISABLED`. -/
lemma update_stop_fire (c : FSMController) (d : String) (act : Actuator)
    (now t : ℚ) (hst : c.state ≠ FSMState.DISABLED) (hh : c.stop_hold_since = some t)
    (hge : now - t ≥ STOP_HOLD_TIME) (hok : act.set_enabled_result false = none) :
    c.update "Close" d act now =
      ⟨{ c with state := FSMState.DISABLED, start_hold_since := none,
                awaiting_confirm_since := none, pending_selection := none,
                running_since := none, gesture_counter := 0, confirm_counter := 0,
                stop_hold_since := none,
                log_messages := c.log_messages ++ [stopMsg] },
       [ActCall.set_enabled false], none⟩ := by
  have hso := stop_override_close_fire c now t act hh hge hst hok
  have hdd := dispatch_disabled
    { c with state := FSMState.DISABLED, start_hold_since := none,
             awaiting_confirm_since := none, pending_selection := none,
             running_since := none, gesture_counter := 0, confirm_counter := 0,
             stop_hold_since := none } "Close" d act now (by simp)
  have hd := handle_disabled_not_open
    { c with state := FSMState.DISABLED, start_hold_since := none,
             awaiting_confirm_since := none, pending_selection := none,
             running_since := none, gesture_counter := 0, confirm_counter := 0,
             stop_hold_since := none } "Close" now act (by decide)
  rw [update_comp c _ _ "Close" d act now _ _ _ _ hso (hdd.trans hd)]
  simp

lemma update_stop_fire_raise (c : FSMController) (d : String) (act : Actuator)
    (now t : ℚ) (e : String) (hst : c.state ≠ FSMState.DISABLED)
    (hh : c.stop_hold_since = some t) (hge : now - t ≥ STOP_HOLD_TIME)
    (hfail : act.set_enabled_result false = some e) :
    c.update "Close" d act now = ⟨c, [ActCall.set_enabled false], some e⟩ := by
  have hso := stop_override_close_fire_raise c now t act e hh hge hst hfail
  exact update_comp_so_raise c c "Close" d act now [stopMsg] [ActCall.set_enabled false] e hso

/-! ### Field-preservation lemmas -/

lemma transition_to_log (c : FSMController) (st : FSMState) (now : ℚ) :
    (transition_to c st now).log_messages = c.log_messages := by
  unfold transition_to
  repeat' split
  all_goals cases c.state <;> simp

lemma transition_to_stop_hold (c : FSMController) (st : FSMState) (now : ℚ) :
    (transition_to c st now).stop_hold_since = c.stop_hold_since := by
  unfold transition_to
  repeat' split
  all_goals cases c.state <;> simp

lemma handle_disabled_log (c : FSMController) (s : String) (now : ℚ) (act : Actuator) :
    (handle_disabled_state c s now act).ctrl.log_messages = c.log_messages := by
  unfold handle_disabled_state
  repeat' split
  all_goals simp_all [transition_to_log]
  all_goals repeat' split
  all_goals simp_all [transition_to_log]

lemma handle_enabled_log (c : FSMController) (d : String) (now : ℚ) :
    (handle_enabled_state c d now).1.log_messages = c.log_messages := by
  unfold handle_enabled_state
  repeat' split
  all_goals simp_all [transition_to_log]
  all_goals repeat' split
  all_goals simp_all [transition_to_log]

lemma handle_await_log (c : FSMController) (d : String) (now : ℚ) (act : Actuator) :
    (handle_await_confirm_state c d now act).ctrl.log_messages = c.log_messages := by
  unfold handle_await_confirm_state
  repeat' split
  all_goals simp_all [transition_to_log]
  all_goals repeat' split
  all_goals simp_all [transition_to_log]

lemma handle_running_log (c : FSMController) (now : ℚ) (act : Actuator) :
    (handle_running_state c now act).ctrl.log_messages = c.log_messages := by
  unfold handle_running_state
  repeat' split
  all_goals simp_all [transition_to_log]
  all_goals repeat' split
  all_goals simp_all [transition_to_log]

lemma dispatch_log (c : FSMController) (s d : String) (act : Actuator) (now : ℚ) :
    (dispatch c s d act now).ctrl.log_messages = c.log_messages := by
  unfold dispatch
  split
  · exact handle_disabled_log ..
  · exact handle_enabled_log ..
  · exact handle_await_log ..
  · exact handle_running_log ..

lemma stop_override_log (c : FSMController) (s : String) (now : ℚ) (act : Actuator) :
    (stop_override c s now act).ctrl.log_messages = c.log_messages := by
  unfold stop_override
  repeat' split
  all_goals simp_all [transition_to_log]
  all_goals repeat' split
  all_goals simp_all [transition_to_log]

lemma handle_disabled_stop_hold (c : FSMController) (s : String) (now : ℚ) (act : Actuator) :
    (handle_disabled_state c s now act).ctrl.stop_hold_since = c.stop_hold_since := by
  unfold handle_disabled_state
  repeat' split
  all_goals simp_all [transition_to_stop_hold]
  all_goals repeat' split
  all_goals simp_all [transition_to_stop_hold]

lemma handle_enabled_stop_hold (c : FSMController) (d : String) (now : ℚ) :
    (handle_enabled_state c d now).1.stop_hold_since = c.stop_hold_since := by
  unfold handle_enabled_state
  repeat' split
  all_goals simp_all [transition_to_stop_hold]
  all_goals repeat' split
  all_goals simp_all [transition_to_stop_hold]

lemma handle_await_stop_hold (c : FSMController) (d : String) (now : ℚ) (act : Actuator) :
    (handle_await_confirm_state c d now act).ctrl.stop_hold_since = c.stop_hold_since := by
  unfold handle_await_confirm_state
  repeat' split
  all_goals simp_all [transition_to_stop_hold]
  all_goals repeat' split
  all_goals simp_all [transition_to_stop_hold]

lemma handle_running_stop_hold (c : FSMController) (now : ℚ) (act : Actuator) :
    (handle_running_state c now act).ctrl.stop_hold_since = c.stop_hold_since := by
  unfold handle_running_state
  repeat' split
  all_goals simp_all [transition_to_stop_hold]
  all_goals repeat' split
  all_goals simp_all [transition_to_stop_hold]

lemma dispatch_stop_hold (c : FSMController) (s d : String) (act : Actuator) (now : ℚ) :
    (dispatch c s d act now).ctrl.stop_hold_since = c.stop_hold_since := by
  unfold dispatch
  split
  · exact handle_disabled_stop_hold ..
  · exact handle_enabled_stop_hold ..
  · exact handle_await_stop_hold ..
  · exact handle_running_stop_hold ..

/-! ### Whole-tick scenario lemmas: ENABLED, AWAIT_CONFIRM, RUNNING (static gesture not "Close") -/

lemma update_enabled_not_dir (c : FSMController) (s d : String) (act : Actuator)
    (now : ℚ) (hsc : s ≠ "Close") (hst : c.state = FSMState.ENABLED)
    (hd : ¬ (d = "CW" ∨ d = "CCW")) :
    c.update s d act now =
      ⟨{ c with stop_hold_since := none, pending_selection := none,
                gesture_counter := 0 }, [], none⟩ := by
  have hso := stop_override_not_close c s now act hsc
  have hdd := dispatch_enabled { c with stop_hold_since := none } s d act now
    (by simpa using hst)
  have hh := handle_enabled_not_dir { c with stop_hold_since := none } d now hd
  rw [update_comp c _ _ s d act now _ _ _ _ hso (hdd.trans (by rw [hh]))]
  simp

lemma update_enabled_new_dir (c : FSMController) (s d : String) (act : Actuator)
    (now : ℚ) (hsc : s ≠ "Close") (hst : c.state = FSMState.ENABLED)
    (hdir : d = "CW" ∨ d = "CCW") (hp : c.pending_selection ≠ some d) :
    c.update s d act now =
      ⟨{ c with stop_hold_since := none, pending_selection := some d,
                gesture_counter := 1 }, [], none⟩ := by
  have hso := stop_override_not_close c s now act hsc
  have hdd := dispatch_enabled { c with stop_hold_since := none } s d act now
    (by simpa using hst)
  have hh := handle_enabled_new_dir { c with stop_hold_since := none } d now hdir
    (by simpa using hp)
  rw [update_comp c _ _ s d act now _ _ _ _ hso (hdd.trans (by rw [hh]))]
  simp

lemma update_enabled_count (c : FSMController) (s d : String) (act : Actuator)
    (now : ℚ) (hsc : s ≠ "Close") (hst : c.state = FSMState.ENABLED)
    (hdir : d = "CW" ∨ d = "CCW") (hp : c.pending_selection = some d)
    (hlt : c.gesture_counter + 1 < GESTURE_CONFIRM_COUNT) :
    c.update s d act now =
      ⟨{ c with stop_hold_since := none,
                gesture_counter := c.gesture_counter + 1 }, [], none⟩ := by
  have hso := stop_override_not_close c s now act hsc
  have hdd := dispatch_enabled { c with stop_hold_since := none } s d act now
    (by simpa using hst)
  have hh := handle_enabled_count { c with stop_hold_since := none } d now hdir
    (by simpa using hp) (by simpa using hlt)
  rw [update_comp c _ _ s d act now _ _ _ _ hso (hdd.trans (by rw [hh]))]
  simp

lemma update_enabled_fire (c : FSMController) (s d : String) (act : Actuator)
    (now : ℚ) (hsc : s ≠ "Close") (hst : c.state = FSMState.ENABLED)
    (hdir : d = "CW" ∨ d = "CCW") (hp : c.pending_selection = some d)
    (hge : c.gesture_counter + 1 ≥ GESTURE_CONFIRM_COUNT) :
    c.update s d act now =
      ⟨{ c with state := FSMState.AWAIT_CONFIRM, stop_hold_since := none,
                awaiting_confirm_since := some now, running_since := none,
                gesture_counter := 0,
                log_messages := c.log_messages ++ [selMsg (some d)] }, [], none⟩ := by
  have hso := stop_override_not_close c s now act hsc
  have hdd := dispatch_enabled { c with stop_hold_since := none } s d act now
    (by simpa using hst)
  have hh := handle_enabled_fire { c with stop_hold_since := none } d now hdir
    (by simpa using hp) (by simpa using hge)
  rw [update_comp c _ _ s d act now _ _ _ _ hso (hdd.trans (by rw [hh]))]
  simp

lemma update_await_miss_quiet (c : FSMController) (s d : String) (act : Actuator)
    (now : ℚ) (hsc : s ≠ "Close") (hst : c.state = FSMState.AWAIT_CONFIRM)
    (hp : some d ≠ c.pending_selection)
    (htm : truthy_and_gt c.awaiting_confirm_since now CONFIRM_TIMEOUT = false) :
    c.update s d act now =
      ⟨{ c with stop_hold_since := none, confirm_counter := 0 }, [], none⟩ := by
  have hso := stop_override_not_close c s now act hsc
  have hdd := dispatch_await { c with stop_hold_since := none } s d act now
    (by simpa using hst)
  have hh := handle_await_miss_quiet { c with stop_hold_since := none } d now act
    (by simpa using hp) (by simpa using htm)
  rw [update_comp c _ _ s d act now _ _ _ _ hso (hdd.trans hh)]
  simp

lemma update_await_miss_timeout (c : FSMController) (s d : String) (act : Actuator)
    (now : ℚ) (hsc : s ≠ "Close") (hst : c.state = FSMState.AWAIT_CONFIRM)
    (hp : some d ≠ c.pending_selection)
    (htm : truthy_and_gt c.awaiting_confirm_since now CONFIRM_TIMEOUT = true) :
    c.update s d act now =
      ⟨{ c with state := FSMState.ENABLED, stop_hold_since := none,
                awaiting_confirm_since := none, pending_selection := none,
                confirm_counter := 0,
                log_messages := c.log_messages ++ [confirmTimeoutMsg] }, [], none⟩ := by
  have hso := stop_override_not_close c s now act hsc
  have hdd := dispatch_await { c with stop_hold_since := none } s d act now
    (by simpa using hst)
  have hh := handle_await_miss_timeout { c with stop_hold_since := none } d now act
    (by simpa using hp) (by simpa using hst) (by simpa using htm)
  rw [update_comp c _ _ s d act now _ _ _ _ hso (hdd.trans hh)]
  simp

lemma update_await_match_quiet (c : FSMController) (s d : String) (act : Actuator)
    (now : ℚ) (hsc : s ≠ "Close") (hst : c.state = FSMState.AWAIT_CONFIRM)
    (hp : some d = c.pending_selection)
    (hlt : c.confirm_counter + 1 < GESTURE_CONFIRM_COUNT)
    (htm : truthy_and_gt c.awaiting_confirm_since now CONFIRM_TIMEOUT = false) :
    c.update s d act now =
      ⟨{ c with stop_hold_since := none,
                confirm_counter := c.confirm_counter + 1 }, [], none⟩ := by
  have hso := stop_override_not_close c s now act hsc
  have hdd := dispatch_await { c with stop_hold_since := none } s d act now
    (by simpa using hst)
  have hh := handle_await_match_quiet { c with stop_hold_since := none } d now act
    (by simpa using hp) (by simpa using hlt) (by simpa using htm)
  rw [update_comp c _ _ s d act now _ _ _ _ hso (hdd.trans hh)]
  simp

lemma update_await_match_timeout (c : FSMController) (s d : String) (act : Actuator)
    (now : ℚ) (hsc : s ≠ "Close") (hst : c.state = FSMState.AWAIT_CONFIRM)
    (hp : some d = c.pending_selection)
    (hlt : c.confirm_counter + 1 < GESTURE_CONFIRM_COUNT)
    (htm : truthy_and_gt c.awaiting_confirm_since now CONFIRM_TIMEOUT = true) :
    c.update s d act now =
      ⟨{ c with state := FSMState.ENABLED, stop_hold_since := none,
                awaiting_confirm_since := none, pending_selection := none,
                confirm_counter := 0,
                log_messages := c.log_messages ++ [confirmTimeoutMsg] }, [], none⟩ := by
  have hso := stop_override_not_close c s now act hsc
  have hdd := dispatch_await { c with stop_hold_since := none } s d act now
    (by simpa using hst)
  have hh := handle_await_match_timeout { c with stop_hold_since := none } d now act
    (by simpa using hp) (by simpa using hst) (by simpa using hlt) (by simpa using htm)
  rw [update_comp c _ _ s d act now _ _ _ _ hso (hdd.trans hh)]
  simp

lemma update_await_fire (c : FSMController) (s d : String) (act : Actuator)
    (now : ℚ) (hsc : s ≠ "Close") (hst : c.state = FSMState.AWAIT_CONFIRM)
    (hp : some d = c.pending_selection)
    (hge : c.confirm_counter + 1 ≥ GESTURE_CONFIRM_COUNT)
    (hsel : ∀ b, act.set_program_selection_result b = none) :
    c.update s d act now =
      ⟨{ c with state := FSMState.RUNNING, stop_hold_since := none,
                running_since := some now, awaiting_confirm_since := none,
                pending_selection := none, confirm_counter := 0,
                log_messages := c.log_messages ++
                  (confMsg c.pending_selection ::
                    (match act.pulse_execute_result EXEC_PULSE_TIME with
                     | some e => [pulseErrMsg e]
                     | none => [])) },
       [ActCall.set_program_selection (c.pending_selection == some "CCW"),
        ActCall.pulse_execute EXEC_PULSE_TIME,
        ActCall.set_program_selection false], none⟩ := by
  have hso := stop_override_not_close c s now act hsc
  have hdd := dispatch_await { c with stop_hold_since := none } s d act now
    (by simpa using hst)
  have hh := handle_await_fire { c with stop_hold_since := none } d now act
    (by simpa using hp) (by simpa using hst) (by simpa using hge) hsel
  rw [update_comp c _ _ s d act now _ _ _ _ hso (hdd.trans hh)]
  simp

lemma update_running_poll_raise (c : FSMController) (s d : String) (act : Actuator)
    (now : ℚ) (e : String) (hsc : s ≠ "Close") (hst : c.state = FSMState.RUNNING)
    (hpoll : act.get_program_finished_result = Except.error e) :
    c.update s d act now =
      ⟨{ c with stop_hold_since := none,
                log_messages := c.log_messages ++ [statusErrMsg e] },
       [ActCall.get_program_finished], none⟩ := by
  have hso := stop_override_not_close c s now act hsc
  have hdd := dispatch_running { c with stop_hold_since := none } s d act now
    (by simpa using hst)
  have hh := handle_running_poll_raise { c with stop_hold_since := none } now act e hpoll
  rw [update_comp c _ _ s d act now _ _ _ _ hso (hdd.trans hh)]
  simp

lemma update_running_finished (c : FSMController) (s d : String) (act : Actuator)
    (now : ℚ) (hsc : s ≠ "Close") (hst : c.state = FSMState.RUNNING)
    (hpoll : act.get_program_finished_result = Except.ok true) :
    c.update s d act now =
      ⟨{ c with state := FSMState.ENABLED, stop_hold_since := none,
                running_since := none, pending_selection := none,
                log_messages := c.log_messages ++ [finishedMsg] },
       [ActCall.get_program_finished], none⟩ := by
  have hso := stop_override_not_close c s now act hsc
  have hdd := dispatch_running { c with stop_hold_since := none } s d act now
    (by simpa using hst)
  have hh := handle_running_finished { c with stop_hold_since := none } now act
    (by simpa using hst) hpoll
  rw [update_comp c _ _ s d act now _ _ _ _ hso (hdd.trans hh)]
  simp

lemma update_running_timeout (c : FSMController) (s d : String) (act : Actuator)
    (now : ℚ) (hsc : s ≠ "Close") (hst : c.state = FSMState.RUNNING)
    (hpoll : act.get_program_finished_result = Except.ok false)
    (htm : truthy_and_gt c.running_since now MAX_RUNNING_TIME = true) :
    c.update s d act now =
      ⟨{ c with state := FSMState.ENABLED, stop_hold_since := none,
                running_since := none, pending_selection := none,
                log_messages := c.log_messages ++ [execTimeoutMsg] },
       [ActCall.get_program_finished], none⟩ := by
  have hso := stop_override_not_close c s now act hsc
  have hdd := dispatch_running { c with stop_hold_since := none } s d act now
    (by simpa using hst)
  have hh := handle_running_timeout { c with stop_hold_since := none } now act
    (by simpa using hst) hpoll (by simpa using htm)
  rw [update_comp c _ _ s d act now _ _ _ _ hso (hdd.trans hh)]
  simp

lemma update_running_quiet (c : FSMController) (s d : String) (act : Actuator)
    (now : ℚ) (hsc : s ≠ "Close") (hst : c.state = FSMState.RUNNING)
    (hpoll : act.get_program_finished_result = Except.ok false)
    (htm : truthy_and_gt c.running_since now MAX_RUNNING_TIME = false) :
    c.update s d act now =
      ⟨{ c with stop_hold_since := none }, [ActCall.get_program_finished], none⟩ := by
  have hso := stop_override_not_close c s now act hsc
  have hdd := dispatch_running { c with stop_hold_since := none } s d act now
    (by simpa using hst)
  have hh := handle_running_quiet { c with stop_hold_since := none } now act hpoll
    (by simpa using htm)
  rw [update_comp c _ _ s d act now _ _ _ _ hso (hdd.trans hh)]
  simp

/-! ### Tick-level structural lemmas -/

lemma handle_disabled_calls (c : FSMController) (s : String) (now : ℚ) (act : Actuator) :
    ActCall.set_enabled false ∉ (handle_disabled_state c s now act).calls := by
  unfold handle_disabled_state
  repeat' split
  all_goals simp

lemma handle_await_calls (c : FSMController) (d : String) (now : ℚ) (act : Actuator) :
    ActCall.set_enabled false ∉ (handle_await_confirm_state c d now act).calls := by
  unfold handle_await_confirm_state
  repeat' split
  all_goals simp_all
  all_goals repeat' split
  all_goals simp_all

lemma handle_running_calls (c : FSMController) (now : ℚ) (act : Actuator) :
    ActCall.set_enabled false ∉ (handle_running_state c now act).calls := by
  unfold handle_running_state
  repeat' split
  all_goals simp

/-- The per-state logic never calls `set_enabled(false)`: that call is
made only by the stop override. -/
lemma dispatch_calls_no_disable (c : FSMController) (s d : String) (act : Actuator)
    (now : ℚ) : ActCall.set_enabled false ∉ (dispatch c s d act now).calls := by
  unfold dispatch
  split
  · exact handle_disabled_calls c s now act
  · simp
  · exact handle_await_calls c d now act
  · exact handle_running_calls c now act

lemma transition_to_state (c : FSMController) (st : FSMState) (now : ℚ) :
    (transition_to c st now).state = st := by
  unfold transition_to
  repeat' split
  all_goals cases c.state <;> simp

/-- The per-state logic never transitions into `DISABLED`: only the stop
override does. -/
lemma dispatch_not_disabled (c : FSMController) (s d : String) (act : Actuator)
    (now : ℚ) (h : c.state ≠ FSMState.DISABLED) :
    (dispatch c s d act now).ctrl.state ≠ FSMState.DISABLED := by
  unfold dispatch handle_disabled_state handle_enabled_state handle_await_confirm_state
    handle_running_state
  repeat' split
  all_goals simp_all [transition_to_state]
  all_goals repeat' split
  all_goals simp_all [transition_to_state]

lemma updateAux_log (c : FSMController) (s d : String) (act : Actuator) (now : ℚ) :
    (updateAux c s d act now).ctrl.log_messages = c.log_messages := by
  simp only [updateAux]
  split
  all_goals simp [dispatch_log, stop_override_log]

lemma updateAux_stop_hold_not_close (c : FSMController) (s d : String) (act : Actuator)
    (now : ℚ) (h : s ≠ "Close") :
    (updateAux c s d act now).ctrl.stop_hold_since = none := by
  simp only [updateAux]
  rw [stop_override_not_close c s now act h]
  simp [dispatch_stop_hold]

lemma update_ctrl_eq (c : FSMController) (s d : String) (act : Actuator) (now : ℚ) :
    (c.update s d act now).ctrl =
      { (updateAux c s d act now).ctrl with
        log_messages := (updateAux c s d act now).ctrl.log_messages ++
          (match (updateAux c s d act now).raised with
           | some _ => []
           | none => (updateAux c s d act now).msgs) } := by
  simp only [FSMController.update]
  split
  all_goals rename_i heq
  all_goals simp [heq]

lemma update_calls_eq (c : FSMController) (s d : String) (act : Actuator) (now : ℚ) :
    (c.update s d act now).calls = (updateAux c s d act now).calls := by
  simp only [FSMController.update]
  split
  all_goals simp

lemma update_raised_eq (c : FSMController) (s d : String) (act : Actuator) (now : ℚ) :
    (c.update s d act now).raised = (updateAux c s d act now).raised := by
  simp only [FSMController.update]
  split
  all_goals rename_i heq
  all_goals simp [heq]

/-- Any tick whose static gesture is not "Close" leaves the stop hold
cleared, whatever else it does and even if it raises. -/
lemma update_stop_hold_not_close (c : FSMController) (s d : String) (act : Actuator)
    (now : ℚ) (h : s ≠ "Close") :
    (c.update s d act now).ctrl.stop_hold_since = none := by
  rw [update_ctrl_eq]
  simpa using updateAux_stop_hold_not_close c s d act now h

lemma runTrace_append (c : FSMController) (l1 l2 : List TickIn) :
    runTrace c (l1 ++ l2) =
      ((runTrace (runTicks c l1) l2).1,
        (runTrace c l1).2 ++ (runTrace (runTicks c l1) l2).2) := by
  induction l1 generalizing c with
  | nil => simp [runTrace, runTicks]
  | cons t ts ih =>
      simp only [List.cons_append, runTrace, runTicks, List.append_eq]
      rw [ih]
      simp [runTicks]

/-! ### Trace lemmas for the hold behaviours -/

/-- While `Open` is held in `DISABLED` and the elapsed time since the
hold began stays below the start-hold duration, ticks change nothing but
the stop-hold field: no transition, no actuator call. -/
lemma open_hold_progress (t0 : ℚ) (l : List TickIn) :
    ∀ c : FSMController, c.state = FSMState.DISABLED → c.start_hold_since = some t0 →
      (∀ tk ∈ l, tk.static_gesture = "Open" ∧ ¬ tk.now - t0 ≥ START_HOLD_TIME) →
      (runTrace c l).1.state = FSMState.DISABLED ∧
        (runTrace c l).1.start_hold_since = some t0 ∧ (runTrace c l).2 = [] := by
  induction l with
  | nil => intro c h1 h2 _; simp [runTrace, h1, h2]
  | cons tk ts ih =>
      intro c h1 h2 hl
      obtain ⟨hs, hlt⟩ := hl tk (by simp)
      have upd := update_disabled_open_early c tk.dynamic_gesture tk.act tk.now t0 h1 h2 hlt
      have hrec := ih { c with stop_hold_since := none } (by simpa using h1)
        (by simpa using h2) (fun u hu => hl u (by simp [hu]))
      rw [runTrace_cons, hs, upd]
      simpa using hrec

lemma update_disabled_close (c : FSMController) (d : String) (act : Actuator) (now : ℚ)
    (hst : c.state = FSMState.DISABLED) :
    (c.update "Close" d act now).ctrl.start_hold_since = none ∧
    (c.update "Close" d act now).ctrl.state = FSMState.DISABLED ∧
    (c.update "Close" d act now).calls = [] := by
  rcases hsh : c.stop_hold_since with _ | t
  · rw [update_disabled_close_start c d act now hst hsh]
    simp [hst]
  · by_cases hge : now - t ≥ STOP_HOLD_TIME
    · rw [update_disabled_close_late c d act now t hst hsh hge]
      simp [hst]
    · rw [update_disabled_close_early c d act now t hst hsh hge]
      simp [hst]

/-- In `DISABLED`, any tick whose static gesture is not "Open" resets the
start hold, stays in `DISABLED` and calls nothing. -/
lemma update_disabled_reset (c : FSMController) (s d : String) (act : Actuator) (now : ℚ)
    (hst : c.state = FSMState.DISABLED) (hs : s ≠ "Open") :
    (c.update s d act now).ctrl.start_hold_since = none ∧
    (c.update s d act now).ctrl.state = FSMState.DISABLED ∧
    (c.update s d act now).calls = [] := by
  by_cases hc : s = "Close"
  · subst hc
    exact update_disabled_close c d act now hst
  · rw [update_disabled_other c s d act now hst hs hc]
    simp [hst]

/-- C8: from `Disabled`, with `Open` held continuously, the hold starts
at the first `Open` tick; every further `Open` tick whose elapsed time
since that first tick is below the start-hold duration (3.0 s) leaves
the engine in `Disabled` with no actuator call; the first tick whose
elapsed time reaches the duration transitions to `Enabled`, the whole
trace making exactly one `set_enabled(true)` call; and in `Disabled`
any tick with a static gesture other than "Open" resets the hold
progress to nothing while staying in `Disabled`. -/
theorem C8_start_hold (c : FSMController) (d0 : String) (a0 : Actuator) (t0 : ℚ)
    (l : List TickIn) (tf : TickIn)
    (hst : c.state = FSMState.DISABLED) (hh : c.start_hold_since = none)
    (hl : ∀ tk ∈ l, tk.static_gesture = "Open" ∧ tk.now - t0 < START_HOLD_TIME)
    (hf1 : tf.static_gesture = "Open") (hf2 : tf.now - t0 ≥ START_HOLD_TIME)
    (hf3 : tf.act.set_enabled_result true = none) :
    ((runTrace c (⟨"Open", d0, a0, t0⟩ :: l)).1.state = FSMState.DISABLED ∧
      (runTrace c (⟨"Open", d0, a0, t0⟩ :: l)).2 = []) ∧
    ((runTrace c ((⟨"Open", d0, a0, t0⟩ :: l) ++ [tf])).1.state = FSMState.ENABLED ∧
      (runTrace c ((⟨"Open", d0, a0, t0⟩ :: l) ++ [tf])).2 = [ActCall.set_enabled true]) ∧
    (∀ (c2 : FSMController) (tk : TickIn), c2.state = FSMState.DISABLED →
      tk.static_gesture ≠ "Open" →
      (c2.update tk.static_gesture tk.dynamic_gesture tk.act tk.now).ctrl.start_hold_since
          = none ∧
      (c2.update tk.static_gesture tk.dynamic_gesture tk.act tk.now).ctrl.state
          = FSMState.DISABLED) := by
  have upd0 := update_disabled_open_start c d0 a0 t0 hst hh
  have hprog := open_hold_progress t0 l
    ({ c with stop_hold_since := none, start_hold_since := some t0 })
    (by simpa using hst) (by simp)
    (fun u hu => ⟨(hl u hu).1, not_le.mpr (by simpa using (hl u hu).2)⟩)
  have head1 : (runTrace c (⟨"Open", d0, a0, t0⟩ :: l)).1.state = FSMState.DISABLED ∧
      (runTrace c (⟨"Open", d0, a0, t0⟩ :: l)).1.start_hold_since = some t0 ∧
      (runTrace c (⟨"Open", d0, a0, t0⟩ :: l)).2 = [] := by
    rw [runTrace_cons]
    simp only [upd0]
    simpa using hprog
  refine ⟨⟨head1.1, head1.2.2⟩, ?_, ?_⟩
  · have updf := update_disabled_open_fire (runTrace c (⟨"Open", d0, a0, t0⟩ :: l)).1
      tf.dynamic_gesture tf.act tf.now t0 head1.1 head1.2.1 hf2 hf3
    have hsingle := runTrace_cons (runTrace c (⟨"Open", d0, a0, t0⟩ :: l)).1 tf []
    rw [hf1, updf] at hsingle
    have hpre : runTicks c (⟨"Open", d0, a0, t0⟩ :: l) =
        (runTrace c (⟨"Open", d0, a0, t0⟩ :: l)).1 := rfl
    constructor
    · rw [runTrace_append c (⟨"Open", d0, a0, t0⟩ :: l) [tf], hpre, hsingle]
      simp [runTrace]
    · rw [runTrace_append c (⟨"Open", d0, a0, t0⟩ :: l) [tf], hpre, hsingle]
      simp [runTrace, upd0, hprog.2.2]
  · intro c2 tk h1 h2
    exact ⟨(update_disabled_reset c2 tk.static_gesture tk.dynamic_gesture tk.act tk.now
        h1 h2).1,
      (update_disabled_reset c2 tk.static_gesture tk.dynamic_gesture tk.act tk.now
        h1 h2).2.1⟩

/-- Witness for C8 at a concrete three-tick trace: `Open` at times 0 and
1 keeps the engine disabled; `Open` at time 3 enables it with one
`set_enabled(true)` call. -/
theorem C8_start_hold_witness :
    ((runTrace FSMController.init
        (⟨"Open", "", Actuator.ok false, 0⟩ :: [⟨"Open", "", Actuator.ok false, 1⟩])).1.state
        = FSMState.DISABLED ∧
      (runTrace FSMController.init
        (⟨"Open", "", Actuator.ok false, 0⟩ :: [⟨"Open", "", Actuator.ok false, 1⟩])).2
        = []) ∧
    ((runTrace FSMController.init
        ((⟨"Open", "", Actuator.ok false, 0⟩ :: [⟨"Open", "", Actuator.ok false, 1⟩]) ++
          [⟨"Open", "", Actuator.ok false, 3⟩])).1.state = FSMState.ENABLED ∧
      (runTrace FSMController.init
        ((⟨"Open", "", Actuator.ok false, 0⟩ :: [⟨"Open", "", Actuator.ok false, 1⟩]) ++
          [⟨"Open", "", Actuator.ok false, 3⟩])).2 = [ActCall.set_enabled true]) ∧
    (∀ (c2 : FSMController) (tk : TickIn), c2.state = FSMState.DISABLED →
      tk.static_gesture ≠ "Open" →
      (c2.update tk.static_gesture tk.dynamic_gesture tk.act tk.now).ctrl.start_hold_since
          = none ∧
      (c2.update tk.static_gesture tk.dynamic_gesture tk.act tk.now).ctrl.state
          = FSMState.DISABLED) :=
  C8_start_hold FSMController.init "" (Actuator.ok false) 0
    [⟨"Open", "", Actuator.ok false, 1⟩] ⟨"Open", "", Actuator.ok false, 3⟩
    rfl rfl
    (by
      intro tk htk
      rw [List.mem_singleton] at htk
      subst htk
      exact ⟨rfl, by norm_num [START_HOLD_TIME]⟩)
    rfl (by norm_num [START_HOLD_TIME]) rfl

lemma updateAux_of_so (c c1 : FSMController) (s d : String) (act : Actuator) (now : ℚ)
    (m1 : List String) (k1 : List ActCall)
    (hso : stop_override c s now act = ⟨c1, m1, k1, none⟩) :
    updateAux c s d act now =
      ⟨(dispatch c1 s d act now).ctrl, m1 ++ (dispatch c1 s d act now).msgs,
       k1 ++ (dispatch c1 s d act now).calls, (dispatch c1 s d act now).raised⟩ := by
  simp [updateAux, hso]

/-- While `Close` is held and the elapsed time since the hold began is
below the stop-hold duration, the state never becomes `DISABLED`, the
stop hold is kept, and `set_enabled(false)` is never called. -/
lemma close_hold_progress (t0 : ℚ) (l : List TickIn) :
    ∀ c : FSMController, c.state ≠ FSMState.DISABLED → c.stop_hold_since = some t0 →
      (∀ tk ∈ l, tk.static_gesture = "Close" ∧ ¬ tk.now - t0 ≥ STOP_HOLD_TIME) →
      (runTrace c l).1.state ≠ FSMState.DISABLED ∧
        (runTrace c l).1.stop_hold_since = some t0 ∧
        ActCall.set_enabled false ∉ (runTrace c l).2 := by
  induction l with
  | nil => intro c h1 h2 _; simp [runTrace, h1, h2]
  | cons tk ts ih =>
      intro c h1 h2 hl
      obtain ⟨hs, hlt⟩ := hl tk (by simp)
      have hso := stop_override_close_early c tk.now t0 tk.act h2 hlt
      have haux := updateAux_of_so c c "Close" tk.dynamic_gesture tk.act tk.now [] []
        hso
      have hctrl : (c.update "Close" tk.dynamic_gesture tk.act tk.now).ctrl.state =
          (dispatch c "Close" tk.dynamic_gesture tk.act tk.now).ctrl.state ∧
          (c.update "Close" tk.dynamic_gesture tk.act tk.now).ctrl.stop_hold_since =
          (dispatch c "Close" tk.dynamic_gesture tk.act tk.now).ctrl.stop_hold_since := by
        rw [update_ctrl_eq]
        simp [haux]
      have hcalls : (c.update "Close" tk.dynamic_gesture tk.act tk.now).calls =
          (dispatch c "Close" tk.dynamic_gesture tk.act tk.now).calls := by
        rw [update_calls_eq]
        simp [haux]
      have hrec := ih (c.update "Close" tk.dynamic_gesture tk.act tk.now).ctrl
        (by
          rw [hctrl.1]
          exact dispatch_not_disabled c "Close" tk.dynamic_gesture tk.act tk.now h1)
        (by rw [hctrl.2, dispatch_stop_hold, h2])
        (fun u hu => hl u (by simp [hu]))
      rw [runTrace_cons, hs]
      refine ⟨hrec.1, hrec.2.1, ?_⟩
      simp only [List.mem_append, not_or]
      exact ⟨by
        rw [hcalls]
        exact dispatch_calls_no_disable c "Close" tk.dynamic_gesture tk.act tk.now,
        hrec.2.2⟩

/-- C1: for every starting state and a tick sequence holding `Close`
continuously from time `t0`: while the elapsed time stays below the
stop-hold duration (3.0 s), `set_enabled(false)` is never called; the
first tick whose elapsed time reaches the duration transitions the
engine to `Disabled` with exactly one additional `set_enabled(false)`
call, evaluated before the per-state logic (the fired tick contributes
that call only); once `Disabled` with `Close` still held, further ticks
make no actuator call at all and stay `Disabled`; and any tick whose
static gesture is not "Close" resets the stop hold to nothing. -/
theorem C1_stop_override (c : FSMController) (d0 : String) (a0 : Actuator) (t0 : ℚ)
    (l : List TickIn) (tf : TickIn)
    (hst : c.state ≠ FSMState.DISABLED) (hh : c.stop_hold_since = none)
    (hl : ∀ tk ∈ l, tk.static_gesture = "Close" ∧ tk.now - t0 < STOP_HOLD_TIME)
    (hf1 : tf.static_gesture = "Close") (hf2 : tf.now - t0 ≥ STOP_HOLD_TIME)
    (hf3 : tf.act.set_enabled_result false = none) :
    (ActCall.set_enabled false ∉ (runTrace c (⟨"Close", d0, a0, t0⟩ :: l)).2) ∧
    ((runTrace c ((⟨"Close", d0, a0, t0⟩ :: l) ++ [tf])).1.state = FSMState.DISABLED ∧
      (runTrace c ((⟨"Close", d0, a0, t0⟩ :: l) ++ [tf])).2 =
        (runTrace c (⟨"Close", d0, a0, t0⟩ :: l)).2 ++ [ActCall.set_enabled false]) ∧
    (∀ (c2 : FSMController) (tk : TickIn), c2.state = FSMState.DISABLED →
      tk.static_gesture = "Close" →
      (c2.update tk.static_gesture tk.dynamic_gesture tk.act tk.now).calls = [] ∧
      (c2.update tk.static_gesture tk.dynamic_gesture tk.act tk.now).ctrl.state
          = FSMState.DISABLED) ∧
    (∀ (c2 : FSMController) (tk : TickIn), tk.static_gesture ≠ "Close" →
      (c2.update tk.static_gesture tk.dynamic_gesture tk.act tk.now).ctrl.stop_hold_since
          = none) := by
  have hso0 := stop_override_close_start c t0 a0 hh
  have haux0 := updateAux_of_so c { c with stop_hold_since := some t0 } "Close" d0 a0 t0
    [] [] hso0
  have hctrl0 : (c.update "Close" d0 a0 t0).ctrl.state =
      (dispatch { c with stop_hold_since := some t0 } "Close" d0 a0 t0).ctrl.state ∧
      (c.update "Close" d0 a0 t0).ctrl.stop_hold_since =
      (dispatch { c with stop_hold_since := some t0 } "Close" d0 a0 t0).ctrl.stop_hold_since := by
    rw [update_ctrl_eq]
    simp [haux0]
  have hcalls0 : (c.update "Close" d0 a0 t0).calls =
      (dispatch { c with stop_hold_since := some t0 } "Close" d0 a0 t0).calls := by
    rw [update_calls_eq]
    simp [haux0]
  have hprog := close_hold_progress t0 l (c.update "Close" d0 a0 t0).ctrl
    (by
      rw [hctrl0.1]
      exact dispatch_not_disabled _ "Close" d0 a0 t0 (by simpa using hst))
    (by rw [hctrl0.2, dispatch_stop_hold])
    (fun u hu => ⟨(hl u hu).1, not_le.mpr (by simpa using (hl u hu).2)⟩)
  have head1 : ActCall.set_enabled false ∉ (runTrace c (⟨"Close", d0, a0, t0⟩ :: l)).2 := by
    rw [runTrace_cons]
    simp only [List.mem_append, not_or]
    refine ⟨?_, hprog.2.2⟩
    rw [hcalls0]
    exact dispatch_calls_no_disable _ "Close" d0 a0 t0
  have hstate1 : (runTrace c (⟨"Close", d0, a0, t0⟩ :: l)).1.state ≠ FSMState.DISABLED := by
    rw [runTrace_cons]
    exact hprog.1
  have hhold1 : (runTrace c (⟨"Close", d0, a0, t0⟩ :: l)).1.stop_hold_since = some t0 := by
    rw [runTrace_cons]
    exact hprog.2.1
  refine ⟨head1, ?_, ?_, ?_⟩
  · have updf := update_stop_fire (runTrace c (⟨"Close", d0, a0, t0⟩ :: l)).1
      tf.dynamic_gesture tf.act tf.now t0 hstate1 hhold1 hf2 hf3
    have hsingle := runTrace_cons (runTrace c (⟨"Close", d0, a0, t0⟩ :: l)).1 tf []
    rw [hf1, updf] at hsingle
    have hpre : runTicks c (⟨"Close", d0, a0, t0⟩ :: l) =
        (runTrace c (⟨"Close", d0, a0, t0⟩ :: l)).1 := rfl
    constructor
    · rw [runTrace_append c (⟨"Close", d0, a0, t0⟩ :: l) [tf], hpre, hsingle]
      simp [runTrace]
    · rw [runTrace_append c (⟨"Close", d0, a0, t0⟩ :: l) [tf], hpre, hsingle]
      simp [runTrace]
  · intro c2 tk h1 h2
    have h := update_disabled_close c2 tk.dynamic_gesture tk.act tk.now h1
    rw [h2]
    exact ⟨h.2.2, h.2.1⟩
  · intro c2 tk h2
    exact update_stop_hold_not_close c2 tk.static_gesture tk.dynamic_gesture tk.act
      tk.now h2

/-- Witness for C1 at a concrete trace from `Enabled`: `Close` at times
0 and 1 never disables; `Close` at time 3 disables with exactly one
`set_enabled(false)` call. -/
theorem C1_stop_override_witness :
    (ActCall.set_enabled false ∉
      (runTrace { FSMController.init with state := FSMState.ENABLED }
        (⟨"Close", "", Actuator.ok false, 0⟩ :: [⟨"Close", "", Actuator.ok false, 1⟩])).2) ∧
    ((runTrace { FSMController.init with state := FSMState.ENABLED }
        ((⟨"Close", "", Actuator.ok false, 0⟩ :: [⟨"Close", "", Actuator.ok false, 1⟩]) ++
          [⟨"Close", "", Actuator.ok false, 3⟩])).1.state = FSMState.DISABLED ∧
      (runTrace { FSMController.init with state := FSMState.ENABLED }
        ((⟨"Close", "", Actuator.ok false, 0⟩ :: [⟨"Close", "", Actuator.ok false, 1⟩]) ++
          [⟨"Close", "", Actuator.ok false, 3⟩])).2 =
        (runTrace { FSMController.init with state := FSMState.ENABLED }
          (⟨"Close", "", Actuator.ok false, 0⟩ :: [⟨"Close", "", Actuator.ok false, 1⟩])).2 ++
          [ActCall.set_enabled false]) ∧
    (∀ (c2 : FSMController) (tk : TickIn), c2.state = FSMState.DISABLED →
      tk.static_gesture = "Close" →
      (c2.update tk.static_gesture tk.dynamic_gesture tk.act tk.now).calls = [] ∧
      (c2.update tk.static_gesture tk.dynamic_gesture tk.act tk.now).ctrl.state
          = FSMState.DISABLED) ∧
    (∀ (c2 : FSMController) (tk : TickIn), tk.static_gesture ≠ "Close" →
      (c2.update tk.static_gesture tk.dynamic_gesture tk.act tk.now).ctrl.stop_hold_since
          = none) :=
  C1_stop_override { FSMController.init with state := FSMState.ENABLED } ""
    (Actuator.ok false) 0 [⟨"Close", "", Actuator.ok false, 1⟩]
    ⟨"Close", "", Actuator.ok false, 3⟩ (by simp) rfl
    (by
      intro tk htk
      rw [List.mem_singleton] at htk
      subst htk
      exact ⟨rfl, by norm_num [STOP_HOLD_TIME]⟩)
    rfl (by norm_num [STOP_HOLD_TIME]) rfl

/-! ### C2: the RUNNING state, poll results and the forced timeout -/

/-- C2 counterexample: in `Running` entered at time 1, at `now = 100`
(far beyond the 15.0 s bound) a tick whose poll fails leaves the engine
in `Running` with only the error logged — it does not transition to
`Enabled` as the claim states for failing polls past the bound. -/
theorem C2_counterexample :
    ((({ FSMController.init with state := FSMState.RUNNING, running_since := some 1 } :
        FSMController).update "" "" (pollFailAct "io error") 100).ctrl.state
        = FSMState.RUNNING) ∧
    ((({ FSMController.init with state := FSMState.RUNNING, running_since := some 1 } :
        FSMController).update "" "" (pollFailAct "io error") 100).ctrl.log_messages
        = [statusErrMsg "io error"]) ∧
    (100 : ℚ) - 1 > MAX_RUNNING_TIME := by
  rw [update_running_poll_raise _ "" "" (pollFailAct "io error") 100 "io error"
    (by decide) rfl rfl]
  refine ⟨rfl, by simp [FSMController.init], by norm_num [MAX_RUNNING_TIME]⟩

/-- C2 amended: in `Running` (static gesture not "Close" on the tick):
a successful poll returning `true` transitions to `Enabled` logging
completion; a successful poll returning `false` past the bound
(`running_since` nonzero, `now - running_since > 15.0`) transitions to
`Enabled` logging the forced timeout; a successful `false` poll before
the bound leaves the state unchanged; and a failing poll leaves the
engine in `Running` with only the error logged, regardless of the
elapsed time — the forced timeout is applied only on ticks whose poll
succeeds with `false`. -/
theorem C2_running_amended (c : FSMController) (s d : String) (act : Actuator)
    (now r : ℚ) (hsc : s ≠ "Close") (hst : c.state = FSMState.RUNNING) :
    (act.get_program_finished_result = Except.ok false → c.running_since = some r →
      r ≠ 0 → now - r > MAX_RUNNING_TIME →
      (c.update s d act now).ctrl.state = FSMState.ENABLED ∧
      (c.update s d act now).ctrl.log_messages = c.log_messages ++ [execTimeoutMsg]) ∧
    (act.get_program_finished_result = Except.ok true →
      (c.update s d act now).ctrl.state = FSMState.ENABLED ∧
      (c.update s d act now).ctrl.log_messages = c.log_messages ++ [finishedMsg]) ∧
    (∀ e, act.get_program_finished_result = Except.error e →
      (c.update s d act now).ctrl =
        { c with stop_hold_since := none,
                 log_messages := c.log_messages ++ [statusErrMsg e] }) ∧
    (act.get_program_finished_result = Except.ok false →
      truthy_and_gt c.running_since now MAX_RUNNING_TIME = false →
      (c.update s d act now).ctrl = { c with stop_hold_since := none }) := by
  refine ⟨?_, ?_, ?_, ?_⟩
  · intro hpoll hr hr0 hgt
    have htm : truthy_and_gt c.running_since now MAX_RUNNING_TIME = true := by
      simp [truthy_and_gt, hr, hr0, hgt]
    rw [update_running_timeout c s d act now hsc hst hpoll htm]
    simp
  · intro hpoll
    rw [update_running_finished c s d act now hsc hst hpoll]
    simp
  · intro e hpoll
    rw [update_running_poll_raise c s d act now e hsc hst hpoll]
  · intro hpoll htm
    rw [update_running_quiet c s d act now hsc hst hpoll htm]

/-- Witness for the amended C2: the forced-timeout conjunct at a
concrete `Running` state past the bound with a successful false poll. -/
theorem C2_running_amended_witness :
    (({ FSMController.init with state := FSMState.RUNNING, running_since := some 1 } :
        FSMController).update "" "" (Actuator.ok false) 100).ctrl.state
        = FSMState.ENABLED ∧
    (({ FSMController.init with state := FSMState.RUNNING, running_since := some 1 } :
        FSMController).update "" "" (Actuator.ok false) 100).ctrl.log_messages
        = [] ++ [execTimeoutMsg] :=
  (C2_running_amended
      { FSMController.init with state := FSMState.RUNNING, running_since := some 1 }
      "" "" (Actuator.ok false) 100 1 (by decide) rfl).1
    rfl rfl (by norm_num) (by norm_num [MAX_RUNNING_TIME])

/-! ### C5 and C10: the AWAIT_CONFIRM execute path -/

/-- C5: in `AwaitConfirm` with the dynamic gesture matching
`pending_selection` and the incremented consecutive count reaching the
required 15, the tick calls, in order and exactly once each,
`set_program_selection(variant)` with the variant decided by
`pending_selection` (prog-2 exactly when it is "CCW"),
`pulse_execute(0.2)`, and `set_program_selection(false)`; a failing
pulse is caught and logged and blocks neither the final selection call
nor the transition; the engine ends in `Running` with
`running_since = now` and `awaiting_confirm_since`, `pending_selection`,
`confirm_counter` cleared, and no exception propagates. -/
theorem C5_confirm_execute (c : FSMController) (s d : String) (act : Actuator)
    (now : ℚ) (hsc : s ≠ "Close") (hst : c.state = FSMState.AWAIT_CONFIRM)
    (hp : c.pending_selection = some d)
    (hcnt : c.confirm_counter + 1 ≥ GESTURE_CONFIRM_COUNT)
    (hsel : ∀ b, act.set_program_selection_result b = none) :
    (c.update s d act now).ctrl.state = FSMState.RUNNING ∧
    (c.update s d act now).calls =
      [ActCall.set_program_selection (d == "CCW"),
       ActCall.pulse_execute EXEC_PULSE_TIME,
       ActCall.set_program_selection false] ∧
    (c.update s d act now).ctrl.running_since = some now ∧
    (c.update s d act now).ctrl.awaiting_confirm_since = none ∧
    (c.update s d act now).ctrl.pending_selection = none ∧
    (c.update s d act now).ctrl.confirm_counter = 0 ∧
    (c.update s d act now).raised = none ∧
    (∀ e, act.pulse_execute_result EXEC_PULSE_TIME = some e →
      (c.update s d act now).ctrl.log_messages =
        c.log_messages ++ [confMsg (some d), pulseErrMsg e]) ∧
    (act.pulse_execute_result EXEC_PULSE_TIME = none →
      (c.update s d act now).ctrl.log_messages =
        c.log_messages ++ [confMsg (some d)]) := by
  have hupd := update_await_fire c s d act now hsc hst hp.symm hcnt hsel
  refine ⟨?_, ?_, ?_, ?_, ?_, ?_, ?_, ?_, ?_⟩
  · rw [hupd]
  · rw [hupd]
    simp [hp]
  · rw [hupd]
  · rw [hupd]
  · rw [hupd]
  · rw [hupd]
  · rw [hupd]
  · intro e he
    rw [hupd]
    simp [hp, he]
  · intro he
    rw [hupd]
    simp [hp, he]

/-- Witness for C5: a concrete `AwaitConfirm` state at count 14, a
matching "CW" tick, and an actuator whose pulse raises: the engine still
runs all three calls in order and transitions to `Running`. -/
theorem C5_confirm_execute_witness :
    ((awaitPending "CW").update "" "CW" (pulseFailAct "pulse down") 2).ctrl.state
        = FSMState.RUNNING ∧
    ((awaitPending "CW").update "" "CW" (pulseFailAct "pulse down") 2).calls =
      [ActCall.set_program_selection ("CW" == "CCW"),
       ActCall.pulse_execute EXEC_PULSE_TIME,
       ActCall.set_program_selection false] := by
  have h := C5_confirm_execute (awaitPending "CW") "" "CW" (pulseFailAct "pulse down")
    2 (by decide) rfl rfl (by decide) (fun b => rfl)
  exact ⟨h.1, h.2.1⟩

/-- C10: in `AwaitConfirm`, on a tick where the incremented consecutive
count reaches the required 15 while the confirmation timeout has also
elapsed (`awaiting_confirm_since` nonzero and more than 5.0 s old), the
engine takes the execute path — it performs the three actuator calls and
transitions to `Running`, and the log gains the confirmation (and
possibly pulse-error) messages, not the timeout message. -/
theorem C10_execute_beats_timeout (c : FSMController) (s d : String) (act : Actuator)
    (now r : ℚ) (hsc : s ≠ "Close") (hst : c.state = FSMState.AWAIT_CONFIRM)
    (hp : c.pending_selection = some d)
    (hcnt : c.confirm_counter + 1 ≥ GESTURE_CONFIRM_COUNT)
    (hsel : ∀ b, act.set_program_selection_result b = none)
    (ha : c.awaiting_confirm_since = some r) (hr0 : r ≠ 0)
    (hgt : now - r > CONFIRM_TIMEOUT) :
    (c.update s d act now).ctrl.state = FSMState.RUNNING ∧
    (c.update s d act now).calls =
      [ActCall.set_program_selection (d == "CCW"),
       ActCall.pulse_execute EXEC_PULSE_TIME,
       ActCall.set_program_selection false] ∧
    (c.update s d act now).ctrl.log_messages =
      c.log_messages ++
        (confMsg (some d) ::
          (match act.pulse_execute_result EXEC_PULSE_TIME with
           | some e => [pulseErrMsg e]
           | none => [])) := by
  have hupd := update_await_fire c s d act now hsc hst hp.symm hcnt hsel
  refine ⟨?_, ?_, ?_⟩
  · rw [hupd]
  · rw [hupd]
    simp [hp]
  · rw [hupd]
    simp [hp]

/-- Witness for C10: count reached at the same tick on which the
confirmation window (entered at time 1) is long expired at `now = 100`:
the engine still executes and runs. -/
theorem C10_execute_beats_timeout_witness :
    ((awaitPending "CCW").update "" "CCW" (Actuator.ok false) 100).ctrl.state
        = FSMState.RUNNING ∧
    ((awaitPending "CCW").update "" "CCW" (Actuator.ok false) 100).calls =
      [ActCall.set_program_selection ("CCW" == "CCW"),
       ActCall.pulse_execute EXEC_PULSE_TIME,
       ActCall.set_program_selection false] := by
  have h := C10_execute_beats_timeout (awaitPending "CCW") "" "CCW" (Actuator.ok false)
    100 1 (by decide) rfl rfl (by decide) (fun b => rfl) rfl (by norm_num)
    (by norm_num [CONFIRM_TIMEOUT])
  exact ⟨h.1, h.2.1⟩

/-! ### C7: the confirmation timeout -/

/-- C7: in `AwaitConfirm` (static gesture not "Close" on the tick), if
the consecutive-repeat count after this tick stays below the required
15 and the confirmation window has expired (`awaiting_confirm_since`
nonzero — Python treats a 0.0 timestamp as falsy — and
`now - awaiting_confirm_since > 5.0`), the tick transitions back to
`Enabled`, logs the timeout, clears `pending_selection`,
`awaiting_confirm_since` and `confirm_counter`, and calls no actuator
capability. -/
theorem C7_confirm_timeout (c : FSMController) (s d : String) (act : Actuator)
    (now r : ℚ) (hsc : s ≠ "Close") (hst : c.state = FSMState.AWAIT_CONFIRM)
    (hcnt : (if some d = c.pending_selection then c.confirm_counter + 1 else 0)
        < GESTURE_CONFIRM_COUNT)
    (ha : c.awaiting_confirm_since = some r) (hr0 : r ≠ 0)
    (hgt : now - r > CONFIRM_TIMEOUT) :
    (c.update s d act now).ctrl =
      { c with state := FSMState.ENABLED, stop_hold_since := none,
               awaiting_confirm_since := none, pending_selection := none,
               confirm_counter := 0,
               log_messages := c.log_messages ++ [confirmTimeoutMsg] } ∧
    (c.update s d act now).calls = [] := by
  have htm : truthy_and_gt c.awaiting_confirm_since now CONFIRM_TIMEOUT = true := by
    simp [truthy_and_gt, ha, hr0, hgt]
  by_cases hd : some d = c.pending_selection
  · rw [hd] at hcnt
    simp only [if_pos rfl] at hcnt
    rw [update_await_match_timeout c s d act now hsc hst hd hcnt htm]
    exact ⟨rfl, rfl⟩
  · rw [update_await_miss_timeout c s d act now hsc hst hd htm]
    exact ⟨rfl, rfl⟩

/-- Witness for C7: candidate "CW", a mismatching "CCW" tick at
`now = 7` with the window entered at time 1 (6 s elapsed > 5 s). -/
theorem C7_confirm_timeout_witness :
    ((awaitPending "CW").update "" "CCW" (Actuator.ok false) 7).ctrl =
      { awaitPending "CW" with
          state := FSMState.ENABLED
          stop_hold_since := none
          awaiting_confirm_since := none
          pending_selection := none
          confirm_counter := 0
          log_messages := (awaitPending "CW").log_messages ++ [confirmTimeoutMsg] } ∧
    ((awaitPending "CW").update "" "CCW" (Actuator.ok false) 7).calls = [] :=
  C7_confirm_timeout (awaitPending "CW") "" "CCW" (Actuator.ok false) 7 1
    (by decide) rfl (by decide) rfl (by norm_num) (by norm_num [CONFIRM_TIMEOUT])

/-! ### C3: exception propagation out of `update` -/

/-- C3 counterexample: from the initial state, enable with `Open` held
over 3 s, then hold `Close` against an actuator whose `set_enabled`
raises: the fourth `update` call propagates the exception (the claim
says every actuator call inside `update` is wrapped, so `update` should
always complete normally). -/
theorem C3_counterexample :
    ((((FSMController.init.update "Open" "" (Actuator.ok false) 0).ctrl.update
        "Open" "" (Actuator.ok false) 3).ctrl.update
        "Close" "" (failEnableAct "boom") 4).ctrl.update
        "Close" "" (failEnableAct "boom") 7).raised = some "boom" := by
  have h1 : (FSMController.init.update "Open" "" (Actuator.ok false) 0).ctrl =
      (⟨FSMState.DISABLED, 0, 0, some 0, none, none, none, none, []⟩ : FSMController) := by
    rw [update_disabled_open_start FSMController.init "" (Actuator.ok false) 0 rfl rfl]
    rfl
  have h2 : ((⟨FSMState.DISABLED, 0, 0, some 0, none, none, none, none, []⟩ :
      FSMController).update "Open" "" (Actuator.ok false) 3).ctrl =
      (⟨FSMState.ENABLED, 0, 0, none, none, none, none, none, [startMsg]⟩ :
        FSMController) := by
    rw [update_disabled_open_fire _ "" (Actuator.ok false) 3 0 rfl rfl
      (by norm_num [START_HOLD_TIME]) rfl]
    rfl
  have hso3 := stop_override_close_start
    (⟨FSMState.ENABLED, 0, 0, none, none, none, none, none, [startMsg]⟩ : FSMController)
    4 (failEnableAct "boom") rfl
  have hdd3 := dispatch_enabled
    (⟨FSMState.ENABLED, 0, 0, none, some 4, none, none, none, [startMsg]⟩ : FSMController)
    "Close" "" (failEnableAct "boom") 4 rfl
  have hh3 := handle_enabled_not_dir
    (⟨FSMState.ENABLED, 0, 0, none, some 4, none, none, none, [startMsg]⟩ : FSMController)
    "" 4 (by decide)
  have h3 : ((⟨FSMState.ENABLED, 0, 0, none, none, none, none, none, [startMsg]⟩ :
      FSMController).update "Close" "" (failEnableAct "boom") 4).ctrl =
      (⟨FSMState.ENABLED, 0, 0, none, some 4, none, none, none, [startMsg]⟩ :
        FSMController) := by
    rw [update_comp _ _ _ "Close" "" (failEnableAct "boom") 4 _ _ _ _ hso3
      (hdd3.trans (by rw [hh3]))]
    rfl
  have h4 := update_stop_fire_raise
    (⟨FSMState.ENABLED, 0, 0, none, some 4, none, none, none, [startMsg]⟩ : FSMController)
    "" (failEnableAct "boom") 7 4 "boom" (by decide) rfl
    (by norm_num [STOP_HOLD_TIME]) rfl
  rw [h1, h2, h3, h4]

lemma stop_override_raised_none (c : FSMController) (s : String) (now : ℚ)
    (act : Actuator) (h1 : act.set_enabled_result false = none) :
    (stop_override c s now act).raised = none := by
  unfold stop_override
  simp only [h1]
  repeat' split
  all_goals simp_all

lemma handle_disabled_raised_none (c : FSMController) (s : String) (now : ℚ)
    (act : Actuator) (h1 : act.set_enabled_result true = none) :
    (handle_disabled_state c s now act).raised = none := by
  unfold handle_disabled_state
  simp only [h1]
  repeat' split
  all_goals simp_all

lemma handle_await_raised_none (c : FSMController) (d : String) (now : ℚ)
    (act : Actuator) (h2 : ∀ b, act.set_program_selection_result b = none) :
    (handle_await_confirm_state c d now act).raised = none := by
  unfold handle_await_confirm_state
  simp only [h2]
  repeat' split
  all_goals simp_all

lemma handle_running_raised_none (c : FSMController) (now : ℚ) (act : Actuator) :
    (handle_running_state c now act).raised = none := by
  unfold handle_running_state
  repeat' split
  all_goals simp_all

lemma dispatch_raised_none (c : FSMController) (s d : String) (act : Actuator)
    (now : ℚ) (h1 : act.set_enabled_result true = none)
    (h2 : ∀ b, act.set_program_selection_result b = none) :
    (dispatch c s d act now).raised = none := by
  unfold dispatch
  split
  · exact handle_disabled_raised_none c s now act h1
  · simp
  · exact handle_await_raised_none c d now act h2
  · exact handle_running_raised_none c now act

/-- C3 amended: only `pulse_execute` and `get_program_finished` are
wrapped inside the engine; when the actuator's `set_enabled` and
`set_program_selection` succeed, `update` completes normally for every
state, gesture pair and tick time, whatever the pulse call and the poll
do — their failures are caught and logged. A failing `set_enabled` or
`set_program_selection`, however, propagates out of `update`
(`C3_counterexample`). -/
theorem C3_no_raise_amended (c : FSMController) (s d : String) (act : Actuator)
    (now : ℚ) (h1 : ∀ b, act.set_enabled_result b = none)
    (h2 : ∀ b, act.set_program_selection_result b = none) :
    (c.update s d act now).raised = none := by
  rw [update_raised_eq]
  simp only [updateAux]
  have hso := stop_override_raised_none c s now act (h1 false)
  rcases hso2 : stop_override c s now act with ⟨c1, m1, k1, r1⟩
  rw [hso2] at hso
  simp only at hso
  subst hso
  simp [dispatch_raised_none _ s d act now (h1 true) h2]

/-- Witness for the amended C3: with succeeding selection calls, a
failing pulse on the execute tick is caught: no exception propagates. -/
theorem C3_no_raise_amended_witness :
    ((awaitPending "CW").update "" "CW" (pulseFailAct "pulse down") 2).raised = none :=
  C3_no_raise_amended (awaitPending "CW") "" "CW" (pulseFailAct "pulse down") 2
    (fun b => rfl) (fun b => rfl)

/-! ### C9: the log buffer -/

/-- C9: `get_log_messages` returns exactly the accumulated buffer and
clears it: a first drain returns everything accumulated, in order; a
second drain with no intervening `update` returns the empty sequence;
and every `update` only appends to the buffer (so nothing is lost or
duplicated between drains). -/
theorem C9_log_drain (c : FSMController) :
    (c.get_log_messages).1 = c.log_messages ∧
    (c.get_log_messages).2.log_messages = [] ∧
    ((c.get_log_messages).2.get_log_messages).1 = [] ∧
    (∀ (s d : String) (act : Actuator) (now : ℚ), ∃ new : List String,
      (c.update s d act now).ctrl.log_messages = c.log_messages ++ new) := by
  refine ⟨rfl, rfl, rfl, ?_⟩
  intro s d act now
  refine ⟨(match (updateAux c s d act now).raised with
           | some _ => []
           | none => (updateAux c s d act now).msgs), ?_⟩
  rw [update_ctrl_eq]
  simp [updateAux_log]

/-! ### C4: where `pending_selection` can be non-null -/

lemma stop_override_pendingInv (c : FSMController) (s : String) (now : ℚ)
    (act : Actuator) (h : pendingInv c) :
    pendingInv (stop_override c s now act).ctrl := by
  by_cases hs : s = "Close"
  · subst hs
    rcases hsh : c.stop_hold_since with _ | t
    · rw [stop_override_close_start c now act hsh]
      unfold pendingInv at h ⊢
      simpa using h
    · by_cases hge : now - t ≥ STOP_HOLD_TIME
      · by_cases hst : c.state = FSMState.DISABLED
        · rw [stop_override_close_already_disabled c now t act hsh hge hst]
          unfold pendingInv at h ⊢
          simpa using h
        · cases hse : act.set_enabled_result false with
          | some e =>
              rw [stop_override_close_fire_raise c now t act e hsh hge hst hse]
              exact h
          | none =>
              rw [stop_override_close_fire c now t act hsh hge hst hse]
              unfold pendingInv
              simp
      · rw [stop_override_close_early c now t act hsh hge]
        exact h
  · rw [stop_override_not_close c s now act hs]
    unfold pendingInv at h ⊢
    simpa using h

lemma handle_disabled_pendingInv (c : FSMController) (s : String) (now : ℚ)
    (act : Actuator) (hst : c.state = FSMState.DISABLED)
    (hp : c.pending_selection = none) :
    pendingInv (handle_disabled_state c s now act).ctrl := by
  unfold pendingInv
  unfold handle_disabled_state transition_to
  repeat' split
  all_goals simp_all

lemma handle_enabled_pendingInv (c : FSMController) (d : String) (now : ℚ)
    (hst : c.state = FSMState.ENABLED) :
    pendingInv (handle_enabled_state c d now).1 := by
  unfold pendingInv
  unfold handle_enabled_state transition_to
  repeat' split
  all_goals simp_all [GESTURE_CONFIRM_COUNT]
  all_goals repeat' split
  all_goals simp_all

lemma handle_await_pendingInv (c : FSMController) (d : String) (now : ℚ)
    (act : Actuator) (hst : c.state = FSMState.AWAIT_CONFIRM)
    (hp : c.pending_selection.isSome) :
    pendingInv (handle_await_confirm_state c d now act).ctrl := by
  unfold pendingInv
  unfold handle_await_confirm_state transition_to
  repeat' split
  all_goals simp_all
  all_goals repeat' split
  all_goals simp_all

lemma handle_running_pendingInv (c : FSMController) (now : ℚ) (act : Actuator)
    (hst : c.state = FSMState.RUNNING) (hp : c.pending_selection = none) :
    pendingInv (handle_running_state c now act).ctrl := by
  unfold pendingInv
  unfold handle_running_state transition_to
  repeat' split
  all_goals simp_all

lemma dispatch_pendingInv (c : FSMController) (s d : String) (act : Actuator)
    (now : ℚ) (h : pendingInv c) : pendingInv (dispatch c s d act now).ctrl := by
  rcases hst : c.state
  · rw [dispatch_disabled c s d act now hst]
    exact handle_disabled_pendingInv c s now act hst (h.1 hst)
  · rw [dispatch_enabled c s d act now hst]
    exact handle_enabled_pendingInv c d now hst
  · rw [dispatch_await c s d act now hst]
    exact handle_await_pendingInv c d now act hst (h.2.2 hst)
  · rw [dispatch_running c s d act now hst]
    exact handle_running_pendingInv c now act hst (h.2.1 hst)

lemma update_pendingInv (c : FSMController) (s d : String) (act : Actuator)
    (now : ℚ) (h : pendingInv c) : pendingInv (c.update s d act now).ctrl := by
  have haux : pendingInv (updateAux c s d act now).ctrl := by
    simp only [updateAux]
    split
    · exact stop_override_pendingInv c s now act h
    · exact dispatch_pendingInv _ s d act now (stop_override_pendingInv c s now act h)
  rw [update_ctrl_eq]
  unfold pendingInv at haux ⊢
  simpa using haux

lemma runTicks_pendingInv (l : List TickIn) :
    ∀ c : FSMController, pendingInv c → pendingInv (runTicks c l) := by
  induction l with
  | nil => intro c h; simpa [runTicks, runTrace] using h
  | cons tk ts ih =>
      intro c h
      rw [runTicks_cons]
      exact ih _ (update_pendingInv c tk.static_gesture tk.dynamic_gesture tk.act tk.now h)

/-- C4 amended: at every observation point after an update call on a
reachable engine, `pending_selection` is null in `Disabled` and in
`Running` and non-null throughout `AwaitConfirm`; in `Enabled` it may be
non-null on any tick of an ongoing directional run (it tracks the
current candidate), not only on the last tick before the transition to
`AwaitConfirm`. -/
theorem C4_pending_amended (c : FSMController) (h : Reachable c) :
    (c.state = FSMState.DISABLED → c.pending_selection = none) ∧
    (c.state = FSMState.RUNNING → c.pending_selection = none) ∧
    (c.state = FSMState.AWAIT_CONFIRM → c.pending_selection.isSome) := by
  obtain ⟨l, hl⟩ := h
  have h0 : pendingInv FSMController.init := by
    unfold pendingInv FSMController.init
    simp
  have := runTicks_pendingInv l FSMController.init h0
  rw [hl] at this
  exact this

/-- Witness for the amended C4 at the freshly constructed (trivially
reachable) controller. -/
theorem C4_pending_amended_witness :
    (FSMController.init.state = FSMState.DISABLED →
      FSMController.init.pending_selection = none) ∧
    (FSMController.init.state = FSMState.RUNNING →
      FSMController.init.pending_selection = none) ∧
    (FSMController.init.state = FSMState.AWAIT_CONFIRM →
      FSMController.init.pending_selection.isSome) :=
  C4_pending_amended FSMController.init ⟨[], rfl⟩

/-- C4 counterexample: a reachable trace — enable with `Open` held 3 s,
then a single "CW" tick — ends an update with the engine in `Enabled`
and `pending_selection = some "CW"`, yet the next tick (no directional
gesture) stays in `Enabled` and clears it: the non-null observation was
not `AwaitConfirm`, nor a last `Enabled` tick immediately before a
transition to `AwaitConfirm`. -/
theorem C4_counterexample :
    (((FSMController.init.update "Open" "" (Actuator.ok false) 0).ctrl.update
        "Open" "" (Actuator.ok false) 3).ctrl.update
        "" "CW" (Actuator.ok false) 4).ctrl.state = FSMState.ENABLED ∧
    (((FSMController.init.update "Open" "" (Actuator.ok false) 0).ctrl.update
        "Open" "" (Actuator.ok false) 3).ctrl.update
        "" "CW" (Actuator.ok false) 4).ctrl.pending_selection = some "CW" ∧
    ((((FSMController.init.update "Open" "" (Actuator.ok false) 0).ctrl.update
        "Open" "" (Actuator.ok false) 3).ctrl.update
        "" "CW" (Actuator.ok false) 4).ctrl.update
        "" "" (Actuator.ok false) 5).ctrl.state = FSMState.ENABLED ∧
    ((((FSMController.init.update "Open" "" (Actuator.ok false) 0).ctrl.update
        "Open" "" (Actuator.ok false) 3).ctrl.update
        "" "CW" (Actuator.ok false) 4).ctrl.update
        "" "" (Actuator.ok false) 5).ctrl.pending_selection = none := by
  have h1 : (FSMController.init.update "Open" "" (Actuator.ok false) 0).ctrl =
      (⟨FSMState.DISABLED, 0, 0, some 0, none, none, none, none, []⟩ : FSMController) := by
    rw [update_disabled_open_start FSMController.init "" (Actuator.ok false) 0 rfl rfl]
    rfl
  have h2 : ((⟨FSMState.DISABLED, 0, 0, some 0, none, none, none, none, []⟩ :
      FSMController).update "Open" "" (Actuator.ok false) 3).ctrl =
      (⟨FSMState.ENABLED, 0, 0, none, none, none, none, none, [startMsg]⟩ :
        FSMController) := by
    rw [update_disabled_open_fire _ "" (Actuator.ok false) 3 0 rfl rfl
      (by norm_num [START_HOLD_TIME]) rfl]
    rfl
  have h3 : ((⟨FSMState.ENABLED, 0, 0, none, none, none, none, none, [startMsg]⟩ :
      FSMController).update "" "CW" (Actuator.ok false) 4).ctrl =
      (⟨FSMState.ENABLED, 1, 0, none, none, none, none, some "CW", [startMsg]⟩ :
        FSMController) := by
    rw [update_enabled_new_dir _ "" "CW" (Actuator.ok false) 4 (by decide) rfl
      (by decide) (by decide)]
  have h4 : ((⟨FSMState.ENABLED, 1, 0, none, none, none, none, some "CW", [startMsg]⟩ :
      FSMController).update "" "" (Actuator.ok false) 5).ctrl =
      (⟨FSMState.ENABLED, 0, 0, none, none, none, none, none, [startMsg]⟩ :
        FSMController) := by
    rw [update_enabled_not_dir _ "" "" (Actuator.ok false) 5 (by decide) rfl (by decide)]
  rw [h1, h2, h3, h4]
  exact ⟨rfl, rfl, rfl, rfl⟩

/-! ### C6: alternation never confirms; a sustained run does -/

lemma stop_override_altInv (p : String) (c : FSMController) (s : String) (now : ℚ)
    (act : Actuator) (h : altInv p c) :
    altInv p (stop_override c s now act).ctrl := by
  by_cases hs : s = "Close"
  · subst hs
    rcases hsh : c.stop_hold_since with _ | t
    · rw [stop_override_close_start c now act hsh]
      unfold altInv at h ⊢
      simpa using h
    · by_cases hge : now - t ≥ STOP_HOLD_TIME
      · by_cases hst : c.state = FSMState.DISABLED
        · rw [stop_override_close_already_disabled c now t act hsh hge hst]
          unfold altInv at h ⊢
          simpa using h
        · cases hse : act.set_enabled_result false with
          | some e =>
              rw [stop_override_close_fire_raise c now t act e hsh hge hst hse]
              exact h
          | none =>
              rw [stop_override_close_fire c now t act hsh hge hst hse]
              unfold altInv
              simp
      · rw [stop_override_close_early c now t act hsh hge]
        exact h
  · rw [stop_override_not_close c s now act hs]
    unfold altInv at h ⊢
    simpa using h

lemma handle_disabled_altInv (q : String) (c : FSMController) (s : String) (now : ℚ)
    (act : Actuator) (hst : c.state = FSMState.DISABLED)
    (hcnt : c.gesture_counter = 0) :
    altInv q (handle_disabled_state c s now act).ctrl := by
  unfold altInv
  unfold handle_disabled_state transition_to
  repeat' split
  all_goals simp_all

lemma dispatch_altInv (p d : String) (c : FSMController) (s : String) (act : Actuator)
    (now : ℚ) (h : altInv p c) (hdir : Directional d) (hne : d ≠ p) :
    altInv d (dispatch c s d act now).ctrl := by
  rcases hst : c.state
  · rw [dispatch_disabled c s d act now hst]
    exact handle_disabled_altInv d c s now act hst (h.2.2.2 hst)
  · rw [dispatch_enabled c s d act now hst]
    rcases h.2.2.1 hst with ⟨h0, hnone⟩ | ⟨h1, hsome⟩
    · rw [handle_enabled_new_dir c d now hdir (by rw [hnone]; simp)]
      unfold altInv
      simp [hst]
    · rw [handle_enabled_new_dir c d now hdir
        (by rw [hsome]; simpa using Ne.symm hne)]
      unfold altInv
      simp [hst]
  · exact absurd hst h.1
  · exact absurd hst h.2.1

lemma update_altInv (p d : String) (c : FSMController) (s : String) (act : Actuator)
    (now : ℚ) (h : altInv p c) (hdir : Directional d) (hne : d ≠ p)
    (hok : act.set_enabled_result false = none) :
    altInv d (c.update s d act now).ctrl := by
  have haux : altInv d (updateAux c s d act now).ctrl := by
    have hnone := stop_override_raised_none c s now act hok
    simp only [updateAux, hnone]
    exact dispatch_altInv p d _ s act now (stop_override_altInv p c s now act h)
      hdir hne
  rw [update_ctrl_eq]
  unfold altInv at haux ⊢
  simpa using haux

lemma alt_run (l : List TickIn) :
    ∀ (p : String) (c : FSMController), altInv p c → AltFrom p l →
      (∀ tk ∈ l, tk.act.set_enabled_result false = none) →
      (runTicks c l).state ≠ FSMState.AWAIT_CONFIRM := by
  induction l with
  | nil => intro p c h _ _; simpa [runTicks, runTrace] using h.1
  | cons tk ts ih =>
      intro p c h halt hok
      obtain ⟨hdir, hne, hrest⟩ := halt
      rw [runTicks_cons]
      exact ih tk.dynamic_gesture _
        (update_altInv p tk.dynamic_gesture c tk.static_gesture tk.act tk.now h hdir hne
          (hok tk (by simp)))
        hrest (fun u hu => hok u (by simp [hu]))

/-- A continued run of the same directional gesture in `ENABLED`: from
count `k ≥ 1` with the candidate already set, a nonempty tick list of
that gesture totalling `k + length = 15` reaches `AWAIT_CONFIRM` with
the candidate retained. -/
lemma sustained_run (d : String) (hdir : d = "CW" ∨ d = "CCW") :
    ∀ (l : List TickIn) (c : FSMController) (k : Nat), l ≠ [] →
      c.state = FSMState.ENABLED → c.pending_selection = some d →
      c.gesture_counter = k → k + l.length = GESTURE_CONFIRM_COUNT →
      (∀ tk ∈ l, tk.static_gesture ≠ "Close" ∧ tk.dynamic_gesture = d) →
      (runTicks c l).state = FSMState.AWAIT_CONFIRM ∧
        (runTicks c l).pending_selection = some d := by
  intro l
  induction l with
  | nil => intro c k hne; exact absurd rfl hne
  | cons tk ts ih =>
      intro c k _ hst hp hcnt hlen hall
      obtain ⟨hsc, hd⟩ := hall tk (by simp)
      by_cases hts : ts = []
      · subst hts
        have hge : c.gesture_counter + 1 ≥ GESTURE_CONFIRM_COUNT := by
          simp [GESTURE_CONFIRM_COUNT] at hlen ⊢
          omega
        have hupd := update_enabled_fire c tk.static_gesture d tk.act tk.now hsc hst
          hdir hp hge
        rw [runTicks_cons, hd, hupd]
        simp [runTicks, runTrace, hp]
      · have hlt : c.gesture_counter + 1 < GESTURE_CONFIRM_COUNT := by
          have h1 : 1 ≤ ts.length := List.length_pos.mpr hts
          simp [GESTURE_CONFIRM_COUNT] at hlen ⊢
          omega
        have hupd := update_enabled_count c tk.static_gesture d tk.act tk.now hsc hst
          hdir hp hlt
        rw [runTicks_cons, hd, hupd]
        refine ih _ (c.gesture_counter + 1) hts (by simp [hst]) (by simpa using hp)
          (by simp) ?_ (fun u hu => hall u (by simp [hu]))
        simp [GESTURE_CONFIRM_COUNT] at hlen ⊢
        omega

/-- C6: from an `Enabled` state with no run in progress (counter 0, no
candidate): alternating the two directional gestures on every tick —
whatever the static gestures, tick times, poll results and pulse or
program-selection failures, provided no tick's `set_enabled(false)` call
raises (an unwrapped raise there aborts the tick before the per-state
logic and would skip the gesture) — never reaches `AwaitConfirm`, for
any number of ticks, because the consecutive-match counter resets on
every direction change; whereas 15 consecutive ticks of one directional
gesture (with no stop gesture held) transition to `AwaitConfirm` with
`pending_selection` equal to that direction. -/
theorem C6_alternation_vs_sustained (c : FSMController)
    (hst : c.state = FSMState.ENABLED) (hcnt : c.gesture_counter = 0)
    (hpend : c.pending_selection = none) :
    (∀ (p : String) (l : List TickIn), AltFrom p l →
      (∀ tk ∈ l, tk.act.set_enabled_result false = none) →
      (runTicks c l).state ≠ FSMState.AWAIT_CONFIRM) ∧
    (∀ (d : String) (l : List TickIn), (d = "CW" ∨ d = "CCW") →
      l.length = GESTURE_CONFIRM_COUNT →
      (∀ tk ∈ l, tk.static_gesture ≠ "Close" ∧ tk.dynamic_gesture = d) →
      (runTicks c l).state = FSMState.AWAIT_CONFIRM ∧
        (runTicks c l).pending_selection = some d) := by
  constructor
  · intro p l halt hok
    refine alt_run l p c ?_ halt hok
    unfold altInv
    simp [hst, hcnt, hpend]
  · intro d l hdir hlen hall
    cases l with
    | nil => simp [GESTURE_CONFIRM_COUNT] at hlen
    | cons tk ts =>
        obtain ⟨hsc, hd⟩ := hall tk (by simp)
        have hupd := update_enabled_new_dir c tk.static_gesture d tk.act tk.now hsc hst
          hdir (by rw [hpend]; simp)
        rw [runTicks_cons, hd, hupd]
        refine sustained_run d hdir ts _ 1 ?_ (by simp [hst]) (by simp) (by simp) ?_
          (fun u hu => hall u (by simp [hu]))
        · intro hts
          subst hts
          simp [GESTURE_CONFIRM_COUNT] at hlen
        · simp [GESTURE_CONFIRM_COUNT] at hlen ⊢
          omega

/-- Witness for C6: concretely, from `Enabled`, a 6-tick CW/CCW
alternation never confirms, and 15 straight "CW" ticks do. -/
theorem C6_alternation_vs_sustained_witness :
    (∀ (p : String) (l : List TickIn), AltFrom p l →
      (∀ tk ∈ l, tk.act.set_enabled_result false = none) →
      (runTicks { FSMController.init with state := FSMState.ENABLED } l).state
        ≠ FSMState.AWAIT_CONFIRM) ∧
    (∀ (d : String) (l : List TickIn), (d = "CW" ∨ d = "CCW") →
      l.length = GESTURE_CONFIRM_COUNT →
      (∀ tk ∈ l, tk.static_gesture ≠ "Close" ∧ tk.dynamic_gesture = d) →
      (runTicks { FSMController.init with state := FSMState.ENABLED } l).state
          = FSMState.AWAIT_CONFIRM ∧
      (runTicks { FSMController.init with state := FSMState.ENABLED } l).pending_selection
          = some d) :=
  C6_alternation_vs_sustained { FSMController.init with state := FSMState.ENABLED }
    rfl rfl rfl

end HandGesture
